import Mathlib

/-!
Trezor firmware: status codes, applets, syscall numbers, suspend, colours, fonts

A shallow embedding of `core/embed/lib/error_handling.h` (the hardened status
code `ts_t`, its checks and the verify and ensure macros), of
`core/embed/trezorhal/stm32f4/applet.c` (the applet record, clearing of its
memory and its restart), of `syscall_numbers.h`, of `powerctl_suspend`, of the
colour blends of `gl_color.h` and of the UTF-8 decoder and glyph lookup of
`fonts.c`, followed by the properties established about them.

Machine words are natural numbers that stand for 32-bit patterns; a signed
`int` is the two's-complement reading of its pattern.
-/

namespace Trezor

/-! ## 32-bit words -/

/-- Number of 32-bit patterns. -/
def W32 : Nat := 2 ^ 32

/-- C `~x` on a 32-bit `int`: every bit of the pattern is flipped. -/
def not32 (x : Nat) : Nat := W32 - 1 - x % W32

/-- C `x << n` on a 32-bit `int`, the bits shifted out at the top are lost. -/
def shl32 (x n : Nat) : Nat := (x * 2 ^ n) % W32

/-- C `x >> n` on a signed 32-bit `int` as gcc and clang compile it: an
arithmetic shift, the sign bit (bit 31) is copied into the vacated bits. -/
def sar32 (x n : Nat) : Nat :=
  if x % W32 < 2 ^ 31 then (x % W32) / 2 ^ n
  else W32 - 1 - (W32 - 1 - x % W32) / 2 ^ n

/-! ## Results of code that may end in `__fatal_error` -/

/-- Result of running a piece of C that may call the `noreturn` function
`__fatal_error(msg, file, line)`: either the code returns a value, or it made
that call with message `msg`. The call never returns, so execution ends with
it and a run holds at most one such call. -/
inductive Outcome (α : Type) where
  | ret (a : α) : Outcome α
  | fatal (msg : String) : Outcome α
  deriving DecidableEq, Repr

/-- Continue with the returned value; nothing runs after a fatal call. -/
def Outcome.bind {α β : Type} (o : Outcome α) (f : α → Outcome β) : Outcome β :=
  match o with
  | Outcome.ret a => f a
  | Outcome.fatal msg => Outcome.fatal msg

/-- Number of calls of `__fatal_error` made by the run. -/
def Outcome.fatalCalls {α : Type} (o : Outcome α) : Nat :=
  match o with
  | Outcome.ret _ => 0
  | Outcome.fatal _ => 1

/-- The value the run returned, if it returned. -/
def Outcome.value {α : Type} (o : Outcome α) : Option α :=
  match o with
  | Outcome.ret a => some a
  | Outcome.fatal _ => none

/-! ## error_handling.h -/

/-- `#define TS_BUILD(code) ((code) | (~(code) << 16))`, on `int`. -/
def TS_BUILD (code : Nat) : Nat := (code ||| shl32 (not32 code) 16) % W32

/-- Enumerator `TS_OK = TS_BUILD(0)`. -/
def TS_OK : Nat := TS_BUILD 0
/-- Enumerator `TS_ERROR = TS_BUILD(1)`, generic error. -/
def TS_ERROR : Nat := TS_BUILD 1
/-- Enumerator `TS_ERROR_BUSY = TS_BUILD(2)`. -/
def TS_ERROR_BUSY : Nat := TS_BUILD 2
/-- Enumerator `TS_ERROR_TIMEOUT = TS_BUILD(3)`. -/
def TS_ERROR_TIMEOUT : Nat := TS_BUILD 3
/-- Enumerator `TS_ERROR_NOTINIT = TS_BUILD(4)`. -/
def TS_ERROR_NOTINIT : Nat := TS_BUILD 4
/-- Enumerator `TS_ERROR_ARG = TS_BUILD(4)`. -/
def TS_ERROR_ARG : Nat := TS_BUILD 4
/-- Enumerator `TS_ERROR_IO = TS_BUILD(5)`. -/
def TS_ERROR_IO : Nat := TS_BUILD 5

/-- The macro `_ts_checked(status)`: the status is stored in a `ts_t` (a signed
32-bit enum, its enumerators are negative), then
`(_checked_status & 0xFFFF) != (~_checked_status >> 16)` decides between the
call of `__fatal_error("ts_check() error", ...)` and returning the status. -/
def _ts_checked (status : Nat) : Outcome Nat :=
  let _checked_status := status % W32
  if (_checked_status &&& 0xFFFF) ≠ sar32 (not32 _checked_status) 16 then
    Outcome.fatal "ts_check() error"
  else
    Outcome.ret _checked_status

/-- `#define ts_ok(status) (_ts_checked(status) == TS_OK)`. -/
def ts_ok (status : Nat) : Outcome Bool :=
  (_ts_checked status).bind fun s => Outcome.ret (s == TS_OK)

/-- `#define ts_error(status) (_ts_checked(status) != TS_OK)`. -/
def ts_error (status : Nat) : Outcome Bool :=
  (_ts_checked status).bind fun s => Outcome.ret (s != TS_OK)

/-! ## applet.c

`applet.h`, `systask.h` and `rng.h` are not among the sources. The records
below hold the fields that `applet.c` reads and writes; the functions of
`systask.c` and `rng.c` that `applet.c` calls are parameters of the model.
-/

/-- Byte-addressed memory: the byte stored at each address. -/
abbrev Mem := Nat → Nat

/-- libc `memset(s, c, n)`: the `n` bytes from address `s` on are set to
`(unsigned char)c`, every other byte is left as it is. -/
def memset (m : Mem) (s c n : Nat) : Mem :=
  fun a => if s ≤ a ∧ a < s + n then c % 256 else m a

/-- `applet_header_t`, the fields read by `applet.c`. -/
structure applet_header_t where
  startup : Nat
  stack_start : Nat
  stack_size : Nat
  deriving DecidableEq, Repr

/-- `applet_layout_t`, the fields read by `applet.c`. -/
structure applet_layout_t where
  data1_start : Nat
  data1_size : Nat
  data2_start : Nat
  data2_size : Nat
  deriving DecidableEq, Repr

/-- `applet_t` with task context type `τ` (`systask_t`). The C field `header`
is a pointer to the read-only header in the firmware image, which
`applet_reset` dereferences unconditionally; the record holds the header the
pointer refers to. -/
structure applet_t (τ : Type) where
  header : applet_header_t
  layout : applet_layout_t
  task : τ

/-- Calls that leave `applet.c`, in the order they are made. -/
inductive Event where
  | memset (s c n : Nat) : Event
  | systask_init (stack_start stack_size : Nat) : Event
  | systask_push_data (data size result : Nat) : Event
  | rng_get (result : Nat) : Event
  | systask_push_call (fn arg1 arg2 arg3 : Nat) : Event
  deriving DecidableEq, Repr

/-- Whether the event is a call of `systask_push_call`. -/
def Event.isPushCall : Event → Bool
  | Event.systask_push_call _ _ _ _ => true
  | _ => false

/-- Whether the event is a call of `systask_push_data`. -/
def Event.isPushData : Event → Bool
  | Event.systask_push_data _ _ _ => true
  | _ => false

/-- Whether the event is a call of `rng_get`. -/
def Event.isRngGet : Event → Bool
  | Event.rng_get _ => true
  | _ => false

/-- Whether the event is a call of `memset`. -/
def Event.isMemset : Event → Bool
  | Event.memset _ _ _ => true
  | _ => false

/-- The machine outside the applet record: memory, the state `ρ` of the random
source, and the log of calls made so far. -/
structure World (ρ : Type) where
  mem : Mem
  rng : ρ
  trace : List Event

/-- Modelled from the spec: `systask.c` and `rng.c` are missing; their
functions are taken as they are called in `applet.c` and described in §4.2.
`systask_init(task, stack_start, stack_size)` rewrites the task record,
`systask_push_data(task, data, size)` copies onto the task stack and returns
the address of the copy or its failure sentinel, `systask_push_call(task, fn,
arg1, arg2, arg3)` stages a call, `rng_get()` draws from the random source.
`task_zero` is the task record with all bytes zero. -/
structure Collab (τ ρ : Type) where
  task_zero : τ
  systask_init : τ → Nat → Nat → τ
  systask_push_data : τ → Mem → Nat → Nat → τ × Mem × Nat
  systask_push_call : τ → Mem → Nat → Nat → Nat → Nat → τ × Mem
  rng_get : ρ → Nat × ρ

/-- The call `memset(s, c, n)` made on the world, logged. -/
def World.memset {ρ : Type} (w : World ρ) (s c n : Nat) : World ρ :=
  { w with mem := Trezor.memset w.mem s c n, trace := w.trace ++ [Event.memset s c n] }

/-- `applet_init`: the record is zeroed, then `header` and `layout` are
stored. The body ends with the note
`// !@# check if header refs are valid and inside the layout memory`
and checks nothing; it calls no fatal function. The first argument is the
record as it was before the call. -/
def applet_init {τ ρ : Type} (ops : Collab τ ρ) (_applet : applet_t τ)
    (header : applet_header_t) (layout : applet_layout_t) : Outcome (applet_t τ) :=
  -- memset(applet, 0, sizeof(applet_t)); applet->header = header;
  let applet : applet_t τ := { header := header, layout := ⟨0, 0, 0, 0⟩, task := ops.task_zero }
  -- applet->layout = *layout;
  let applet := { applet with layout := layout }
  Outcome.ret applet

/-- `applet_clear_memory`: each data region of non-zero size is set to zero. -/
def applet_clear_memory {τ ρ : Type} (applet : applet_t τ) (w : World ρ) : World ρ :=
  let w := if applet.layout.data1_size > 0 then
      w.memset applet.layout.data1_start 0 applet.layout.data1_size
    else w
  let w := if applet.layout.data2_size > 0 then
      w.memset applet.layout.data2_start 0 applet.layout.data2_size
    else w
  w

/-- `applet_reset(applet, cmd, arg, arg_size)`; the null pointer is `0`.
Pointers are 32-bit words on the target, so `(uint32_t)arg_copy` is the
address itself. The body calls no fatal function and tests no result. -/
def applet_reset {τ ρ : Type} (ops : Collab τ ρ) (applet : applet_t τ)
    (cmd arg arg_size : Nat) (w : World ρ) : Outcome (applet_t τ × World ρ) :=
  -- Clear all memory the applet is allowed to use
  let w := applet_clear_memory applet w
  -- Reset the applet task (stack pointer, etc.)
  let task := ops.systask_init applet.task applet.header.stack_start applet.header.stack_size
  let w := { w with trace := w.trace ++
    [Event.systask_init applet.header.stack_start applet.header.stack_size] }
  -- Copy the arguments onto the applet stack
  let pushed : τ × World ρ × Nat :=
    if arg ≠ 0 ∧ arg_size > 0 then
      let r := ops.systask_push_data task w.mem arg arg_size
      (r.1, { w with mem := r.2.1, trace := w.trace ++
        [Event.systask_push_data arg arg_size r.2.2] }, r.2.2)
    else (task, w, 0)
  let task := pushed.1
  let w := pushed.2.1
  let arg_copy := pushed.2.2
  -- Schedule the applet task run
  let arg1 := cmd
  let arg2 := arg_copy
  let drawn := ops.rng_get w.rng
  let arg3 := drawn.1
  let w := { w with rng := drawn.2, trace := w.trace ++ [Event.rng_get arg3] }
  let staged := ops.systask_push_call task w.mem applet.header.startup arg1 arg2 arg3
  let w := { w with mem := staged.2, trace := w.trace ++
    [Event.systask_push_call applet.header.startup arg1 arg2 arg3] }
  Outcome.ret ({ applet with task := staged.1 }, w)

/-! ## What the specification asks of a header -/

/-- Whether address `a` lies in one of the two data regions of the layout. -/
def addr_in_layout (layout : applet_layout_t) (a : Nat) : Bool :=
  (decide (layout.data1_start ≤ a) && decide (a < layout.data1_start + layout.data1_size)) ||
  (decide (layout.data2_start ≤ a) && decide (a < layout.data2_start + layout.data2_size))

/-- The requirement of the specification on `applet_init` (not taken from the
code): the entry point and every byte of the stack `[stack_start,
stack_start + stack_size)` lie inside the regions of the layout. -/
def header_in_layout (header : applet_header_t) (layout : applet_layout_t) : Bool :=
  addr_in_layout layout header.startup &&
  (List.range header.stack_size).all fun i => addr_in_layout layout (header.stack_start + i)

/-! ## A stand-in for the task context and the random source -/

/-- Modelled from the spec: `systask_t` is missing; a task context after §3:
stack bounds, stack pointer and the pending call. -/
structure systask_t where
  stack_base : Nat
  stack_end : Nat
  sp : Nat
  pending : Option (Nat × Nat × Nat × Nat)
  deriving DecidableEq, Repr

/-- Copy `n` bytes from address `src` to address `dst`. -/
def memcpy (m : Mem) (dst src n : Nat) : Mem :=
  fun a => if dst ≤ a ∧ a < dst + n then m (src + (a - dst)) else m a

/-- Modelled from the spec: `systask.c` and `rng.c` are missing; a stand-in
after §4.2. `reset` makes the stack empty inside its bounds, `push_data`
copies the blob below the stack top and returns its address, or the sentinel
`0` when the blob does not fit, `push_call` records the call. The random source
is a counter, so successive draws differ. -/
def standIn : Collab systask_t Nat where
  task_zero := ⟨0, 0, 0, none⟩
  systask_init := fun _ stack_start stack_size =>
    ⟨stack_start, stack_start + stack_size, stack_start + stack_size, none⟩
  systask_push_data := fun t m data size =>
    if t.stack_base + size ≤ t.sp then
      ({ t with sp := t.sp - size }, memcpy m (t.sp - size) data size, t.sp - size)
    else (t, m, 0)
  systask_push_call := fun t m fn a1 a2 a3 => ({ t with pending := some (fn, a1, a2, a3) }, m)
  rng_get := fun g => (g + 1, g + 1)

/-- Header of the example: entry point in flash, a 64-byte stack. -/
def exHeader : applet_header_t := ⟨0x08040001, 0x20000100, 64⟩

/-- Layout of the example: one 16-byte data region, the second is empty. -/
def exLayout : applet_layout_t := ⟨0x20000000, 16, 0, 0⟩

/-- Layout of the example with two data regions. -/
def exLayout2 : applet_layout_t := ⟨0x20000000, 16, 0x20000040, 8⟩

/-- Applet of the example, with a task context left over from a previous run. -/
def exApplet : applet_t systask_t :=
  { header := exHeader, layout := exLayout, task := ⟨1, 2, 3, some (9, 9, 9, 9)⟩ }

/-- Memory of the example: `"hello"` at `0x08050000`, `0xAA` everywhere else. -/
def exMem : Mem := fun a =>
  if a = 0x08050000 then 104 else if a = 0x08050001 then 101
  else if a = 0x08050002 then 108 else if a = 0x08050003 then 108
  else if a = 0x08050004 then 111 else 0xAA

/-- World of the example. -/
def exWorld : World Nat := { mem := exMem, rng := 41, trace := [] }

/-! ## Descriptions used in the statements -/

/-- The calls of `memset` that clearing a layout makes: one for each data
region of non-zero size, region 1 first. -/
def clearEvents (layout : applet_layout_t) : List Event :=
  (if layout.data1_size > 0 then [Event.memset layout.data1_start 0 layout.data1_size] else []) ++
  (if layout.data2_size > 0 then [Event.memset layout.data2_start 0 layout.data2_size] else [])

/-- The state in which `applet_reset` schedules the run: the task, the memory
and the value of `arg_copy` after the step "Copy the arguments onto the applet
stack", which calls `systask_push_data` on the reset task and the cleared
memory when an argument is given. -/
def argCopy {τ ρ : Type} (ops : Collab τ ρ) (applet : applet_t τ) (arg arg_size : Nat)
    (w : World ρ) : τ × Mem × Nat :=
  if arg ≠ 0 ∧ arg_size > 0 then
    ops.systask_push_data
      (ops.systask_init applet.task applet.header.stack_start applet.header.stack_size)
      (applet_clear_memory applet w).mem arg arg_size
  else
    (ops.systask_init applet.task applet.header.stack_start applet.header.stack_size,
      (applet_clear_memory applet w).mem, 0)

/-- The calls that one run of `applet_reset` makes, in order: the clearing of
the data regions, `systask_init`, `systask_push_data` when an argument is
given, `rng_get`, `systask_push_call`. -/
def resetEvents {τ ρ : Type} (ops : Collab τ ρ) (applet : applet_t τ)
    (cmd arg arg_size : Nat) (w : World ρ) : List Event :=
  clearEvents applet.layout ++
  [Event.systask_init applet.header.stack_start applet.header.stack_size] ++
  (if arg ≠ 0 ∧ arg_size > 0 then
    [Event.systask_push_data arg arg_size (argCopy ops applet arg arg_size w).2.2]
   else []) ++
  [Event.rng_get (ops.rng_get w.rng).1,
   Event.systask_push_call applet.header.startup cmd
     (argCopy ops applet arg arg_size w).2.2 (ops.rng_get w.rng).1]

/-! ## error_handling.h: the verify and ensure macros

`secbool.h` is not among the sources; its constant `sectrue` is a parameter.
A C condition is an `int`, true when it is not `0`.
-/

/-- One step of a function written with the verify mechanism, with the values
its arguments evaluate to: `verify_ok(status)`, `verify(cond, status)`,
`verify_arg(cond)`, `verify_sec(seccond, status)`. -/
inductive VerifyStep where
  | verify_ok (status : Nat) : VerifyStep
  | verify (cond status : Nat) : VerifyStep
  | verify_arg (cond : Nat) : VerifyStep
  | verify_sec (seccond status : Nat) : VerifyStep
  deriving DecidableEq, Repr

/-- Run one step: `none` when control falls through to the next statement,
`some s` when the step stores `s` in `__status` and jumps to `error`.
`verify_ok` tests `ts_error(_status)`, which may end in `__fatal_error`. -/
def VerifyStep.run (sectrue : Nat) : VerifyStep → Outcome (Option Nat)
  | VerifyStep.verify_ok status =>
      (ts_error status).bind fun failed =>
        Outcome.ret (if failed then some status else none)
  | VerifyStep.verify cond status =>
      Outcome.ret (if cond = 0 then some status else none)
  | VerifyStep.verify_arg cond =>
      Outcome.ret (if cond = 0 then some TS_ERROR_ARG else none)
  | VerifyStep.verify_sec seccond status =>
      Outcome.ret (if seccond ≠ sectrue then some status else none)

/-- The steps of the function, run in order from the value `status` of
`__status`, with `n` steps evaluated so far; at the label `error` the function
returns `verify_status()`. The result is the returned status and the number
of steps that were evaluated. -/
def verify_steps (sectrue : Nat) : List VerifyStep → Nat → Nat → Outcome (Nat × Nat)
  | [], status, n => Outcome.ret (status, n)
  | step :: rest, status, n =>
      (step.run sectrue).bind fun jump =>
        match jump with
        | some s => Outcome.ret (s, n + 1)
        | none => verify_steps sectrue rest status (n + 1)

/-- A function written with the verify mechanism: `verify_init()` sets
`__status = TS_OK`, then come the steps, the label `error` and
`return verify_status()`. -/
def verify_function (sectrue : Nat) (steps : List VerifyStep) : Outcome (Nat × Nat) :=
  verify_steps sectrue steps TS_OK 0

/-- When a step fails and with which status, in the words of the
specification: `verify_ok` fails on a status other than `TS_OK`, with that
status; `verify` and `verify_sec` fail with the given status when the condition
is false, respectively is not `sectrue`; `verify_arg` fails with
`TS_ERROR_ARG` when the condition is false. -/
def VerifyStep.failure (sectrue : Nat) : VerifyStep → Option Nat
  | VerifyStep.verify_ok status => if status = TS_OK then none else some status
  | VerifyStep.verify cond status => if cond = 0 then some status else none
  | VerifyStep.verify_arg cond => if cond = 0 then some TS_ERROR_ARG else none
  | VerifyStep.verify_sec seccond status => if seccond = sectrue then none else some status

/-- `ensure_ok(status, msg)`: `if (!ts_ok(status)) __fatal_error(msg, ...)`. -/
def ensure_ok (status : Nat) (msg : String) : Outcome Unit :=
  (ts_ok status).bind fun ok =>
    if !ok then Outcome.fatal msg else Outcome.ret ()

/-- `ensure_true(cond, msg)`: `if (!(cond)) __fatal_error(msg, ...)`. -/
def ensure_true (cond : Nat) (msg : String) : Outcome Unit :=
  if cond = 0 then Outcome.fatal msg else Outcome.ret ()

/-- `ensure(seccond, msg)`: `if ((seccond) != sectrue) __fatal_error(msg, ...)`. -/
def ensure (sectrue seccond : Nat) (msg : String) : Outcome Unit :=
  if seccond ≠ sectrue then Outcome.fatal msg else Outcome.ret ()

/-! ## syscall_numbers.h -/

/-- The enumerators of `syscall_number_t` in the order of their declaration,
each with its initialiser if it has one (only the first has: `= 1`). -/
def syscall_number_t : List (String × Option Nat) := [
  ("SYSCALL_SYSTEM_EXIT", some 1), ("SYSCALL_SYSTEM_EXIT_ERROR", none),
  ("SYSCALL_SYSTEM_EXIT_FATAL", none), ("SYSCALL_SYSTICK_CYCLES", none),
  ("SYSCALL_SYSTICK_MS", none), ("SYSCALL_SYSTICK_US", none),
  ("SYSCALL_SYSTICK_US_TO_CYCLES", none), ("SYSCALL_SECURE_SHUTDOWN", none),
  ("SYSCALL_REBOOT", none), ("SYSCALL_REBOOT_TO_BOOTLOADER", none),
  ("SYSCALL_REBOOT_AND_UPGRADE", none), ("SYSCALL_SHA256_INIT", none),
  ("SYSCALL_SHA256_UPDATE", none), ("SYSCALL_SHA256_FINAL", none), ("SYSCALL_SHA256_CALC", none),
  ("SYSCALL_DISPLAY_SET_BACKLIGHT", none), ("SYSCALL_DISPLAY_GET_BACKLIGHT", none),
  ("SYSCALL_DISPLAY_SET_ORIENTATION", none), ("SYSCALL_DISPLAY_GET_ORIENTATION", none),
  ("SYSCALL_DISPLAY_GET_FB_INFO", none), ("SYSCALL_DISPLAY_WAIT_FOR_SYNC", none),
  ("SYSCALL_DISPLAY_REFRESH", none), ("SYSCALL_USB_INIT", none), ("SYSCALL_USB_DEINIT", none),
  ("SYSCALL_USB_START", none), ("SYSCALL_USB_STOP", none), ("SYSCALL_USB_CONFIGURED", none),
  ("SYSCALL_USB_HID_ADD", none), ("SYSCALL_USB_HID_CAN_READ", none),
  ("SYSCALL_USB_HID_CAN_WRITE", none), ("SYSCALL_USB_HID_READ", none),
  ("SYSCALL_USB_HID_WRITE", none), ("SYSCALL_USB_HID_READ_SELECT", none),
  ("SYSCALL_USB_HID_READ_BLOCKING", none), ("SYSCALL_USB_HID_WRITE_BLOCKING", none),
  ("SYSCALL_USB_VCP_ADD", none), ("SYSCALL_USB_VCP_CAN_READ", none),
  ("SYSCALL_USB_VCP_CAN_WRITE", none), ("SYSCALL_USB_VCP_READ", none),
  ("SYSCALL_USB_VCP_WRITE", none), ("SYSCALL_USB_VCP_READ_BLOCKING", none),
  ("SYSCALL_USB_VCP_WRITE_BLOCKING", none), ("SYSCALL_USB_WEBUSB_ADD", none),
  ("SYSCALL_USB_WEBUSB_CAN_READ", none), ("SYSCALL_USB_WEBUSB_CAN_WRITE", none),
  ("SYSCALL_USB_WEBUSB_READ", none), ("SYSCALL_USB_WEBUSB_WRITE", none),
  ("SYSCALL_USB_WEBUSB_READ_SELECT", none), ("SYSCALL_USB_WEBUSB_READ_BLOCKING", none),
  ("SYSCALL_USB_WEBUSB_WRITE_BLOCKING", none), ("SYSCALL_SDCARD_POWER_ON", none),
  ("SYSCALL_SDCARD_POWER_OFF", none), ("SYSCALL_SDCARD_IS_PRESENT", none),
  ("SYSCALL_SDCARD_GET_CAPACITY", none), ("SYSCALL_SDCARD_READ_BLOCKS", none),
  ("SYSCALL_SDCARD_WRITE_BLOCKS", none), ("SYSCALL_UNIT_VARIANT_PRESENT", none),
  ("SYSCALL_UNIT_VARIANT_GET_COLOR", none), ("SYSCALL_UNIT_VARIANT_GET_PACKAGING", none),
  ("SYSCALL_UNIT_VARIANT_GET_BTCONLY", none),
  ("SYSCALL_UNIT_VARIANT_IS_SD_HOTSWAP_ENABLED", none),
  ("SYSCALL_SECRET_BOOTLOADER_LOCKED", none), ("SYSCALL_BUTTON_READ", none),
  ("SYSCALL_BUTTON_STATE_LEFT", none), ("SYSCALL_BUTTON_STATE_RIGHT", none),
  ("SYSCALL_TOUCH_GET_EVENT", none), ("SYSCALL_HAPTIC_SET_ENABLED", none),
  ("SYSCALL_HAPTIC_GET_ENABLED", none), ("SYSCALL_HAPTIC_TEST", none),
  ("SYSCALL_HAPTIC_PLAY", none), ("SYSCALL_HAPTIC_PLAY_CUSTOM", none),
  ("SYSCALL_OPTIGA_SIGN", none), ("SYSCALL_OPTIGA_CERT_SIZE", none),
  ("SYSCALL_OPTIGA_READ_CERT", none), ("SYSCALL_OPTIGA_READ_SEC", none),
  ("SYSCALL_OPTIGA_RANDOM_BUFFER", none), ("SYSCALL_STORAGE_INIT", none),
  ("SYSCALL_STORAGE_WIPE", none), ("SYSCALL_STORAGE_IS_UNLOCKED", none),
  ("SYSCALL_STORAGE_LOCK", none), ("SYSCALL_STORAGE_UNLOCK", none),
  ("SYSCALL_STORAGE_HAS_PIN", none), ("SYSCALL_STORAGE_PIN_FAILS_INCREASE", none),
  ("SYSCALL_STORAGE_GET_PIN_REM", none), ("SYSCALL_STORAGE_CHANGE_PIN", none),
  ("SYSCALL_STORAGE_ENSURE_NOT_WIPE_CODE", none), ("SYSCALL_STORAGE_HAS_WIPE_CODE", none),
  ("SYSCALL_STORAGE_CHANGE_WIPE_CODE", none), ("SYSCALL_STORAGE_HAS", none),
  ("SYSCALL_STORAGE_GET", none), ("SYSCALL_STORAGE_SET", none), ("SYSCALL_STORAGE_DELETE", none),
  ("SYSCALL_STORAGE_SET_COUNTER", none), ("SYSCALL_STORAGE_NEXT_COUNTER", none),
  ("SYSCALL_ENTROPY_GET", none), ("SYSCALL_TRANSLATIONS_WRITE", none),
  ("SYSCALL_TRANSLATIONS_READ", none), ("SYSCALL_TRANSLATIONS_ERASE", none),
  ("SYSCALL_TRANSLATIONS_AREA_BYTESIZE", none), ("SYSCALL_RNG_GET", none),
  ("SYSCALL_FIRMWARE_GET_VENDOR", none), ("SYSCALL_FIRMWARE_CALC_HASH", none)]

/-- The values of the enumerators of a C `enum`: an enumerator with an
initialiser has that value, one without has the value of its predecessor plus
one (`next`), and `0` when it is the first. -/
def enumValues : List (String × Option Nat) → Nat → List (String × Nat)
  | [], _ => []
  | (name, some v) :: rest, _ => (name, v) :: enumValues rest (v + 1)
  | (name, none) :: rest, next => (name, next) :: enumValues rest (next + 1)

/-- The syscall identifiers with their values. -/
def syscall_numbers : List (String × Nat) := enumValues syscall_number_t 0

/-- Value of the enumerator `SYSCALL_SYSTEM_EXIT`. -/
def SYSCALL_SYSTEM_EXIT : Nat := (syscall_numbers.lookup "SYSCALL_SYSTEM_EXIT").getD 0

/-- Value of the enumerator `SYSCALL_FIRMWARE_CALC_HASH`. -/
def SYSCALL_FIRMWARE_CALC_HASH : Nat :=
  (syscall_numbers.lookup "SYSCALL_FIRMWARE_CALC_HASH").getD 0

/-- Modelled from the spec: the syscall dispatcher is missing from the sources;
after §4.4 the kernel checks that the ordinal lies within the range of the
enumeration, then runs the fixed handler of that ordinal, which yields a status
code; an ordinal outside the range runs no handler and is answered with the
generic error. The state is the kernel state `σ` with a count of the handler
calls made. -/
def syscall_dispatch {σ : Type} (handler : Nat → σ → σ × Nat) (ordinal : Nat)
    (s : σ × Nat) : Outcome ((σ × Nat) × Nat) :=
  if SYSCALL_SYSTEM_EXIT ≤ ordinal ∧ ordinal ≤ SYSCALL_FIRMWARE_CALC_HASH then
    let r := handler ordinal s.1
    Outcome.ret ((r.1, s.2 + 1), r.2)
  else
    Outcome.ret (s, TS_ERROR)

/-! ## stm32u5/powerctl/powerctl.c -/

/-- The calls made by `powerctl_suspend`. -/
inductive PowerCall where
  | usb_stop : PowerCall
  | haptic_deinit : PowerCall
  | touch_deinit : PowerCall
  | display_get_backlight : PowerCall
  | display_deinit : PowerCall
  | HAL_SuspendTick : PowerCall
  | HAL_EXTI_SetConfigLine : PowerCall
  | HAL_PWREx_EnterSTOP2Mode : PowerCall
  | SystemInit : PowerCall
  | HAL_ResumeTick : PowerCall
  | display_init : PowerCall
  | display_set_backlight (level : Nat) : PowerCall
  | touch_init : PowerCall
  | haptic_init : PowerCall
  | usb_start : PowerCall
  deriving DecidableEq, Repr

/-- `powerctl_suspend`, as the sequence of calls it makes in a build with the
flags `USE_HAPTIC` and `USE_TOUCH` set or not; `backlight_level` is the value
returned by `display_get_backlight()`. -/
def powerctl_suspend (USE_HAPTIC USE_TOUCH : Bool) (backlight_level : Nat) : List PowerCall :=
  [PowerCall.usb_stop] ++
  (if USE_HAPTIC then [PowerCall.haptic_deinit] else []) ++
  (if USE_TOUCH then [PowerCall.touch_deinit] else []) ++
  [PowerCall.display_get_backlight,
   PowerCall.display_deinit,
   PowerCall.HAL_SuspendTick,
   -- Configure PC13 (on-board button) as a wake up pin
   PowerCall.HAL_EXTI_SetConfigLine,
   -- Enter STOP2 mode
   PowerCall.HAL_PWREx_EnterSTOP2Mode,
   -- Recover system clock
   PowerCall.SystemInit,
   PowerCall.HAL_ResumeTick,
   -- Initialize drivers
   PowerCall.display_init,
   PowerCall.display_set_backlight backlight_level] ++
  (if USE_TOUCH then [PowerCall.touch_init] else []) ++
  (if USE_HAPTIC then [PowerCall.haptic_init] else []) ++
  [PowerCall.usb_start]

/-- The subsystems that `powerctl_suspend` stops and starts. -/
inductive Subsystem where
  | usb : Subsystem
  | haptic : Subsystem
  | touch : Subsystem
  | display : Subsystem
  | systick : Subsystem
  deriving DecidableEq, Repr

/-- The subsystem that a call tears down, if it tears one down. -/
def PowerCall.stops : PowerCall → Option Subsystem
  | PowerCall.usb_stop => some Subsystem.usb
  | PowerCall.haptic_deinit => some Subsystem.haptic
  | PowerCall.touch_deinit => some Subsystem.touch
  | PowerCall.display_deinit => some Subsystem.display
  | PowerCall.HAL_SuspendTick => some Subsystem.systick
  | _ => none

/-- The subsystem that a call initialises again, if it initialises one. -/
def PowerCall.starts : PowerCall → Option Subsystem
  | PowerCall.usb_start => some Subsystem.usb
  | PowerCall.haptic_init => some Subsystem.haptic
  | PowerCall.touch_init => some Subsystem.touch
  | PowerCall.display_init => some Subsystem.display
  | PowerCall.HAL_ResumeTick => some Subsystem.systick
  | _ => none

/-- The calls made before `HAL_PWREx_EnterSTOP2Mode`. -/
def beforeStop (calls : List PowerCall) : List PowerCall :=
  calls.takeWhile fun c => c != PowerCall.HAL_PWREx_EnterSTOP2Mode

/-- The calls made after `HAL_PWREx_EnterSTOP2Mode`, that is after wake-up. -/
def afterStop (calls : List PowerCall) : List PowerCall :=
  (calls.dropWhile fun c => c != PowerCall.HAL_PWREx_EnterSTOP2Mode).drop 1

/-! ## gl_color.h (the build with `GL_COLOR_16BIT`)

Arguments are values of their C types; a value stored in a `uint8_t` or
`uint16_t` is reduced modulo `2 ^ 8`, respectively `2 ^ 16`. The macros compute
in `int`.
-/

/-- Conversion of an `int` to `uint16_t`. -/
def toU16 (x : Int) : Nat := (x % 65536).toNat

/-- `#define gl_color16_to_r(c) ((((c)&0xF800) >> 8) | (((c)&0xF800) >> 13))`. -/
def gl_color16_to_r (c : Nat) : Nat := ((c &&& 0xF800) >>> 8) ||| ((c &&& 0xF800) >>> 13)

/-- `#define gl_color16_to_g(c) ((((c)&0x07E0) >> 3) | (((c)&0x07E0) >> 9))`. -/
def gl_color16_to_g (c : Nat) : Nat := ((c &&& 0x07E0) >>> 3) ||| ((c &&& 0x07E0) >>> 9)

/-- `#define gl_color16_to_b(c) ((((c)&0x001F) << 3) | (((c)&0x001F) >> 2))`. -/
def gl_color16_to_b (c : Nat) : Nat := ((c &&& 0x001F) <<< 3) ||| ((c &&& 0x001F) >>> 2)

/-- `#define a4_lerp(fg, bg, alpha) (((fg) * (alpha) + ((bg) * (15 - (alpha)))) / 15)`,
the division of C truncates towards zero. -/
def a4_lerp (fg bg alpha : Int) : Int := (fg * alpha + bg * (15 - alpha)).tdiv 15

/-- `#define a8_lerp(fg, bg, alpha) (((fg) * (alpha) + ((bg) * (255 - (alpha)))) / 255)`. -/
def a8_lerp (fg bg alpha : Int) : Int := (fg * alpha + bg * (255 - alpha)).tdiv 255

/-- `gl_color32_rgb(uint8_t r, uint8_t g, uint8_t b)`:
`(0xFFU << 24) | ((uint32_t)r << 16) | ((uint32_t)g << 8) | b`. -/
def gl_color32_rgb (r g b : Nat) : Nat :=
  let r := r % 256
  let g := g % 256
  let b := b % 256
  ((0xFF <<< 24) ||| (r <<< 16) ||| (g <<< 8) ||| b) % 2 ^ 32

/-- `gl_color16_to_color32(gl_color16_t color)`. -/
def gl_color16_to_color32 (color : Nat) : Nat :=
  let r := gl_color16_to_r color
  let g := gl_color16_to_g color
  let b := gl_color16_to_b color
  gl_color32_rgb r g b

/-- `gl_color16_blend_a4(gl_color16_t fg, gl_color16_t bg, uint8_t alpha)`. -/
def gl_color16_blend_a4 (fg bg alpha : Nat) : Nat :=
  let fg_r := ((fg &&& 0xF800) >>> 11) % 65536
  let bg_r := ((bg &&& 0xF800) >>> 11) % 65536
  let r := toU16 (a4_lerp fg_r bg_r alpha)
  let fg_g := ((fg &&& 0x07E0) >>> 5) % 65536
  let bg_g := ((bg &&& 0x07E0) >>> 5) % 65536
  let g := toU16 (a4_lerp fg_g bg_g alpha)
  let fg_b := ((fg &&& 0x001F) >>> 0) % 65536
  let bg_b := ((bg &&& 0x001F) >>> 0) % 65536
  let b := toU16 (a4_lerp fg_b bg_b alpha)
  ((r <<< 11) ||| (g <<< 5) ||| b) % 65536

/-- `gl_color16_blend_a8(gl_color16_t fg, gl_color16_t bg, uint8_t alpha)`. -/
def gl_color16_blend_a8 (fg bg alpha : Nat) : Nat :=
  let fg_r := ((fg &&& 0xF800) >>> 11) % 65536
  let bg_r := ((bg &&& 0xF800) >>> 11) % 65536
  let r := toU16 (a8_lerp fg_r bg_r alpha)
  let fg_g := ((fg &&& 0x07E0) >>> 5) % 65536
  let bg_g := ((bg &&& 0x07E0) >>> 5) % 65536
  let g := toU16 (a8_lerp fg_g bg_g alpha)
  let fg_b := ((fg &&& 0x001F) >>> 0) % 65536
  let bg_b := ((bg &&& 0x001F) >>> 0) % 65536
  let b := toU16 (a8_lerp fg_b bg_b alpha)
  ((r <<< 11) ||| (g <<< 5) ||| b) % 65536

/-- `gl_color32_blend_a4(gl_color16_t fg, gl_color16_t bg, uint8_t alpha)`. -/
def gl_color32_blend_a4 (fg bg alpha : Nat) : Nat :=
  let fg_r := gl_color16_to_r fg % 65536
  let bg_r := gl_color16_to_r bg % 65536
  let r := toU16 (a4_lerp fg_r bg_r alpha)
  let fg_g := gl_color16_to_g fg % 65536
  let bg_g := gl_color16_to_g bg % 65536
  let g := toU16 (a4_lerp fg_g bg_g alpha)
  let fg_b := gl_color16_to_b fg % 65536
  let bg_b := gl_color16_to_b bg % 65536
  let b := toU16 (a4_lerp fg_b bg_b alpha)
  gl_color32_rgb r g b

/-- `gl_color32_blend_a8(gl_color16_t fg, gl_color16_t bg, uint8_t alpha)`. -/
def gl_color32_blend_a8 (fg bg alpha : Nat) : Nat :=
  let fg_r := gl_color16_to_r fg % 65536
  let bg_r := gl_color16_to_r bg % 65536
  let r := toU16 (a8_lerp fg_r bg_r alpha)
  let fg_g := gl_color16_to_g fg % 65536
  let bg_g := gl_color16_to_g bg % 65536
  let g := toU16 (a8_lerp fg_g bg_g alpha)
  let fg_b := gl_color16_to_b fg % 65536
  let bg_b := gl_color16_to_b bg % 65536
  let b := toU16 (a8_lerp fg_b bg_b alpha)
  gl_color32_rgb r g b

/-! ## gl_color.h: luminance -/

/-- `#define gl_color32_to_r(c) (((c)&0x00FF0000) >> 16)`. -/
def gl_color32_to_r (c : Nat) : Nat := (c &&& 0x00FF0000) >>> 16

/-- `#define gl_color32_to_g(c) (((c)&0x0000FF00) >> 8)`. -/
def gl_color32_to_g (c : Nat) : Nat := (c &&& 0x0000FF00) >>> 8

/-- `#define gl_color32_to_b(c) (((c)&0x000000FF) >> 0)`. -/
def gl_color32_to_b (c : Nat) : Nat := (c &&& 0x000000FF) >>> 0

/-- `static inline uint8_t gl_color32_lum(gl_color16_t color)`. The parameter
is declared with the 16-bit colour type, so the argument of a call is
converted to `uint16_t`; the result is converted to `uint8_t`. -/
def gl_color32_lum (color : Nat) : Nat :=
  let color := color % 65536
  let r := gl_color32_to_r color
  let g := gl_color32_to_g color
  let b := gl_color32_to_b color
  ((r + g + b) / 3) % 256

/-- The luminance that the comment on `gl_color32_lum` describes: the mean of
the red, green and blue components of the 32-bit colour. -/
def lum_of_rgba8888 (c : Nat) : Nat := (c / 65536 % 256 + c / 256 % 256 + c % 256) / 3

/-! ## fonts_types.h and fonts.c

The font data included through `TREZOR_FONT_..._INCLUDE` and the function
`get_utf8_glyph` of the build with `TRANSLATIONS` are not among the sources;
the registry of fonts and that function are parameters. So is the integer type
that the compiler chooses for the enumerated type `font_id_t`: the public
functions take the font as an `int` and pass it to `get_font_info`, whose
parameter is a `font_id_t`. A pointer to a glyph is an address, `0` is `NULL`.
-/

/-- `font_info_t`; `glyph_data` gives the glyph pointer stored at an index. -/
structure font_info_t where
  height : Int
  max_height : Int
  baseline : Int
  glyph_data : Nat → Nat
  glyph_nonprintable : Nat

/-- The enumerators of `font_id_t` in the order of their declaration. -/
def font_id_t : List (String × Option Nat) := [
  ("FONT_NORMAL", some 0), ("FONT_NORMAL_UPPER", none), ("FONT_BOLD", none),
  ("FONT_BOLD_UPPER", none), ("FONT_DEMIBOLD", none), ("FONT_MONO", none),
  ("FONT_BIG", none), ("FONT_SUB", none), ("FONTS_COUNT", none)]

/-- Value of the enumerator `FONTS_COUNT`. -/
def FONTS_COUNT : Nat := ((enumValues font_id_t 0).lookup "FONTS_COUNT").getD 0

/-- What a build fixes: `font_registry`, the entry of each font id being a font
or `NULL` (`none`); `get_utf8_glyph` when `TRANSLATIONS` is defined (`none` in
a build without it); and the integer type that represents `font_id_t`, which C
leaves to the implementation: its width in bits and whether it is signed. The
enumeration has no negative enumerator; a compiler with `int`-sized
enumerations gives it 32 bits, one that packs enumerations gives it one
unsigned byte. -/
structure FontBuild where
  font_registry : Nat → Option font_info_t
  get_utf8_glyph : Option (Nat → Int → Nat)
  font_id_bits : Nat
  font_id_signed : Bool

/-- The conversion of an `int` to `font_id_t`: the value modulo
`2 ^ font_id_bits`, taken in the unsigned range of the type, or in its signed
range when the type is signed. -/
def to_font_id_t (build : FontBuild) (font : Int) : Int :=
  let m : Int := ((2 ^ build.font_id_bits : Nat) : Int)
  let u := font % m
  if build.font_id_signed = true ∧ u ≥ m / 2 then u - m else u

/-- `get_font_info(font_id)`. The parameter has the type `font_id_t` and every
caller passes an `int`, so the argument of a call is converted to `font_id_t`
before the two tests. -/
def get_font_info (build : FontBuild) (font_id : Int) : Option font_info_t :=
  let font_id := to_font_id_t build font_id
  if font_id < 0 ∨ font_id ≥ FONTS_COUNT then
    none
  else
    build.font_registry font_id.toNat

/-- `font_height(font)`. -/
def font_height (build : FontBuild) (font : Int) : Int :=
  match get_font_info build font with
  | none => 0
  | some font_info => font_info.height

/-- `font_max_height(font)`. -/
def font_max_height (build : FontBuild) (font : Int) : Int :=
  match get_font_info build font with
  | none => 0
  | some font_info => font_info.max_height

/-- `font_baseline(font)`. -/
def font_baseline (build : FontBuild) (font : Int) : Int :=
  match get_font_info build font with
  | none => 0
  | some font_info => font_info.baseline

/-- `font_nonprintable_glyph(font)`. -/
def font_nonprintable_glyph (build : FontBuild) (font : Int) : Nat :=
  match get_font_info build font with
  | none => 0
  | some font_info => font_info.glyph_nonprintable

/-- The part of `font_get_glyph` under `#ifdef TRANSLATIONS`: for `c >= 0x7F`
the glyph found by `get_utf8_glyph(c, font)`, if it is not `NULL`. -/
def translated_glyph (build : FontBuild) (font : Int) (c : Nat) : Option Nat :=
  match build.get_utf8_glyph with
  | none => none
  | some get =>
    if c ≥ 0x7F then
      let g := get c font
      if g ≠ 0 then some g else none
    else none

/-- `font_get_glyph(int font, uint16_t c)`. -/
def font_get_glyph (build : FontBuild) (font : Int) (c : Nat) : Nat :=
  match translated_glyph build font c with
  | some g => g
  | none =>
    -- printable ASCII character
    if c ≥ 0x20 ∧ c < 0x7F then
      match get_font_info build font with
      | none => 0
      | some font_info => font_info.glyph_data (c - 0x20)
    else
      font_nonprintable_glyph build font

/-- `font_glyph_iter_t`. The pointer `text` is represented by the bytes of the
buffer from that pointer to the end of the buffer; reading `text[i]` beyond
the end has no value. -/
structure font_glyph_iter_t where
  font : Int
  text : List Nat
  remaining : Int
  deriving DecidableEq, Repr

/-- The statements `iter->text += k; iter->remaining -= k;`. -/
def font_glyph_iter_t.advance (iter : font_glyph_iter_t) (k : Nat) : font_glyph_iter_t :=
  { iter with text := iter.text.drop k, remaining := iter.remaining - k }

/-- `#define UNICODE_BADCHAR 0xFFFD`. -/
def UNICODE_BADCHAR : Nat := 0xFFFD

/-- `#define IS_UTF8_CONTINUE(c) (((c) & 0b11000000) == 0b10000000)`. -/
def IS_UTF8_CONTINUE (c : Nat) : Bool := (c &&& 0b11000000) == 0b10000000

/-- Reading `iter->text[i]`: no value when `i` is outside the buffer. -/
def font_glyph_iter_t.byte (iter : font_glyph_iter_t) (i : Nat) : Option Nat := iter.text[i]?

/-- C `a && b` on operands whose evaluation may read outside the buffer: `b`
is evaluated only when `a` is true. -/
def scAnd (a b : Option Bool) : Option Bool :=
  a.bind fun x => if x then b else some false

/-- `next_utf8_codepoint(iter)`: the codepoint and the iterator after the call,
or `none` when a byte outside the buffer is read. `assert(iter->remaining >
0)` states the precondition of the function. -/
def next_utf8_codepoint (iter : font_glyph_iter_t) : Option (Nat × font_glyph_iter_t) := do
  let t0 ← iter.byte 0
  -- 1-byte UTF-8 character
  if t0 < 0x7f then
    return (t0 % 65536, iter.advance 1)
  -- 2-byte UTF-8 character
  if ← scAnd (some (decide (iter.remaining ≥ 2)))
      (scAnd (some ((t0 &&& 0b11100000) == 0b11000000))
        ((iter.byte 1).map IS_UTF8_CONTINUE)) then
    let t1 ← iter.byte 1
    return (((((t0 % 65536) &&& 0b00011111) <<< 6) ||| (t1 &&& 0b00111111)) % 65536,
      iter.advance 2)
  -- 3-byte UTF-8 character
  if ← scAnd (some (decide (iter.remaining ≥ 3)))
      (scAnd (some ((t0 &&& 0b11110000) == 0b11100000))
        (scAnd ((iter.byte 1).map IS_UTF8_CONTINUE)
          ((iter.byte 2).map IS_UTF8_CONTINUE))) then
    let t1 ← iter.byte 1
    let t2 ← iter.byte 2
    return (((((t0 % 65536) &&& 0b00001111) <<< 12) |||
      (((t1 % 65536) &&& 0b00111111) <<< 6) ||| (t2 &&& 0b00111111)) % 65536,
      iter.advance 3)
  -- 4-byte UTF-8 character
  if ← scAnd (some (decide (iter.remaining ≥ 4)))
      (scAnd (some ((t0 &&& 0b11111000) == 0b11110000))
        (scAnd ((iter.byte 1).map IS_UTF8_CONTINUE)
          (scAnd ((iter.byte 2).map IS_UTF8_CONTINUE)
            ((iter.byte 3).map IS_UTF8_CONTINUE)))) then
    -- we use 16-bit codepoints, so we can't represent 4-byte UTF-8 characters
    return (UNICODE_BADCHAR, iter.advance 4)
  return (UNICODE_BADCHAR, iter.advance 1)

/-- `font_next_glyph(iter, out)` with a bound `fuel` on the number of nested
calls: the returned boolean, the iterator and `*out` after the call, and the
number of self-recursive calls that were made; `none` when the bound is
reached or a byte outside the buffer is read. -/
def font_next_glyph (build : FontBuild) :
    Nat → font_glyph_iter_t → Nat → Option (Bool × font_glyph_iter_t × Nat × Nat)
  | 0, _, _ => none
  | fuel + 1, iter, out =>
    if iter.remaining ≤ 0 then
      some (false, iter, out, 0)
    else
      match next_utf8_codepoint iter with
      | none => none
      | some (c, iter) =>
        let out := font_get_glyph build iter.font c
        if out = 0 then
          -- should not happen
          (font_next_glyph build fuel iter out).map fun r => (r.1, r.2.1, r.2.2.1, r.2.2.2 + 1)
        else
          some (true, iter, out, 0)

/-- A font of the examples: glyph `i` of the table is at address `0x1000 + i`,
except glyph 1 (the character `!`), which is `NULL`; the non-printable glyph
is at `0x2000`. -/
def exFont : font_info_t :=
  { height := 12, max_height := 14, baseline := 2,
    glyph_data := fun i => if i = 1 then 0 else 0x1000 + i,
    glyph_nonprintable := 0x2000 }

/-- A build of the examples without `TRANSLATIONS`: only `FONT_NORMAL` is
registered, and `font_id_t` is an unsigned 32-bit integer. -/
def exBuild : FontBuild :=
  { font_registry := fun id => if id = 0 then some exFont else none,
    get_utf8_glyph := none,
    font_id_bits := 32,
    font_id_signed := false }

/-- The build of the examples as a compiler that packs enumerations makes it:
`font_id_t` is one unsigned byte. -/
def exBuildShort : FontBuild :=
  { exBuild with font_id_bits := 8 }

/-! ## Status codes: properties -/

/-- C1: for every payload `p` of the status enumeration (0..5) the word
`TS_BUILD(p)` has `p` in its lower 16 bits and the 16-bit complement
`0xFFFF - p` in its upper 16 bits; `TS_OK = 0xFFFF0000` and
`TS_ERROR = 0xFFFE0001`. -/
theorem ts_build_layout :
    (∀ p : Fin 6, TS_BUILD p.val < 2 ^ 32 ∧ TS_BUILD p.val % 2 ^ 16 = p.val ∧
      TS_BUILD p.val / 2 ^ 16 = 0xFFFF - p.val) ∧
    TS_OK = 0xFFFF0000 ∧ TS_ERROR = 0xFFFE0001 ∧ TS_ERROR_BUSY = 0xFFFD0002 ∧
    TS_ERROR_TIMEOUT = 0xFFFC0003 ∧ TS_ERROR_NOTINIT = 0xFFFB0004 ∧
    TS_ERROR_ARG = 0xFFFB0004 ∧ TS_ERROR_IO = 0xFFFA0005 := by
  refine ⟨?_, ?_, ?_, ?_, ?_, ?_, ?_, ?_⟩
  · decide
  all_goals decide

/-- Masking with `0xFFFF` keeps the lower 16 bits. -/
theorem and_ffff (c : Nat) : c &&& 0xFFFF = c % 65536 :=
  Nat.and_pow_two_sub_one_eq_mod c 16

/-- The consistency check, in arithmetic: a 32-bit word passes exactly when
bit 31 is set and its halves add up to `0xFFFF`. -/
theorem ts_checked_eq (c : Nat) (hc : c < 2 ^ 32) :
    _ts_checked c =
      if 2 ^ 31 ≤ c ∧ c % 2 ^ 16 + c / 2 ^ 16 = 0xFFFF then Outcome.ret c
      else Outcome.fatal "ts_check() error" := by
  have hw : W32 = 4294967296 := by norm_num [W32]
  simp only [_ts_checked, and_ffff, sar32, not32, hw]
  norm_num at hc ⊢
  have hmod : c % 4294967296 = c := Nat.mod_eq_of_lt hc
  have e1 : (4294967295 - c) % 4294967296 = 4294967295 - c := Nat.mod_eq_of_lt (by omega)
  rw [hmod, e1]
  split_ifs <;> first | rfl | (exfalso; omega)

/-- The word built for a 16-bit value, in arithmetic. -/
theorem ts_build_eq (v : Nat) (hv : v < 2 ^ 16) :
    TS_BUILD v = v + (0xFFFF - v) * 2 ^ 16 := by
  have hw : W32 = 4294967296 := by norm_num [W32]
  simp only [TS_BUILD, shl32, not32, hw]
  norm_num at hv ⊢
  have hmod : v % 4294967296 = v := Nat.mod_eq_of_lt (by omega)
  rw [hmod]
  have e : (4294967295 - v) * 65536 % 4294967296 = 2 ^ 16 * ((65535 - v) % 65536) := by omega
  rw [e, Nat.lor_comm, ← Nat.mul_add_lt_is_or (by omega)]
  omega

/-- The check on the word built for a 16-bit value: it passes exactly for the
values below `0x8000`. -/
theorem ts_checked_build (v : Nat) (hv : v < 2 ^ 16) :
    _ts_checked (TS_BUILD v) =
      if v < 2 ^ 15 then Outcome.ret (TS_BUILD v) else Outcome.fatal "ts_check() error" := by
  have hb := ts_build_eq v hv
  norm_num at hv hb
  obtain ⟨k, hk⟩ : ∃ k, k = 65535 - v := ⟨_, rfl⟩
  rw [← hk] at hb
  have hvk : v + k = 65535 := by omega
  have hlt : TS_BUILD v < 2 ^ 32 := by rw [hb]; norm_num; omega
  rw [ts_checked_eq _ hlt, hb]
  norm_num
  have h1 : (v + k * 65536) / 65536 = k := by
    rw [Nat.add_mul_div_right _ _ (by norm_num), Nat.div_eq_of_lt hv, Nat.zero_add]
  have h2 : v % 65536 = v := Nat.mod_eq_of_lt hv
  rw [h1, h2]
  split_ifs <;> first | rfl | (exfalso; omega)

/-- C2: for every payload `p` of the status enumeration (0..5) the check
`_ts_checked` returns the word built by `TS_BUILD(p)`, whose lower 16 bits are
`p` again, and `ts_ok(TS_BUILD(p))` is true exactly when `p` is the payload
`0` of `TS_OK`. -/
theorem ts_build_roundtrip :
    ∀ p : Fin 6,
      _ts_checked (TS_BUILD p.val) = Outcome.ret (TS_BUILD p.val) ∧
      TS_BUILD p.val &&& 0xFFFF = p.val ∧
      ts_ok (TS_BUILD p.val) = Outcome.ret (decide (p.val = 0)) := by
  decide

/-- C3: for every 32-bit word `c` whose upper 16 bits are not the complement
of its lower 16 bits, `ts_ok(c)` and `ts_error(c)` both end in the call
`__fatal_error("ts_check() error", ...)`, made once, and yield no boolean. -/
theorem ts_guard_violation_fatal (c : Nat) (hc : c < 2 ^ 32)
    (hguard : c / 2 ^ 16 ≠ 0xFFFF - c % 2 ^ 16) :
    ts_ok c = Outcome.fatal "ts_check() error" ∧
    ts_error c = Outcome.fatal "ts_check() error" ∧
    (ts_ok c).fatalCalls = 1 ∧ (ts_error c).fatalCalls = 1 ∧
    (ts_ok c).value = none ∧ (ts_error c).value = none := by
  have h : _ts_checked c = Outcome.fatal "ts_check() error" := by
    rw [ts_checked_eq c hc, if_neg]
    norm_num at hc hguard ⊢
    omega
  simp [ts_ok, ts_error, h, Outcome.bind, Outcome.fatalCalls, Outcome.value]

/-- Witness of C3: the word `0x00010001`, upper half `1`, lower half `1`. -/
theorem ts_guard_violation_fatal_witness :
    (0x00010001 : Nat) < 2 ^ 32 ∧ (0x00010001 : Nat) / 2 ^ 16 ≠ 0xFFFF - 0x00010001 % 2 ^ 16 ∧
    ts_ok 0x00010001 = Outcome.fatal "ts_check() error" ∧
    ts_error 0x00010001 = Outcome.fatal "ts_check() error" :=
  ⟨by decide, by decide,
    (ts_guard_violation_fatal 0x00010001 (by decide) (by decide)).1,
    (ts_guard_violation_fatal 0x00010001 (by decide) (by decide)).2.1⟩

/-- C4, at the failing input: `TS_BUILD(0x8000)` is the word `0x7FFF8000`,
whose upper half is the complement of its lower half, and `_ts_checked`
rejects it with a fatal call: `~0x7FFF8000 = 0x80007FFF` is negative and the
signed shift by 16 gives `0xFFFF8000`, not `0x8000`. The largest value without
bit 15, `0x7FFF`, passes. -/
theorem ts_checked_rejects_bit15 :
    TS_BUILD 0x8000 = 0x7FFF8000 ∧
    TS_BUILD 0x8000 / 2 ^ 16 = 0xFFFF - TS_BUILD 0x8000 % 2 ^ 16 ∧
    sar32 (not32 (TS_BUILD 0x8000)) 16 = 0xFFFF8000 ∧
    _ts_checked (TS_BUILD 0x8000) = Outcome.fatal "ts_check() error" ∧
    _ts_checked (TS_BUILD 0x7FFF) = Outcome.ret (TS_BUILD 0x7FFF) := by
  decide

/-! ## Applet: shared facts -/

/-- Clearing logs the calls of `memset` it makes and nothing else. -/
theorem applet_clear_memory_trace {τ ρ : Type} (applet : applet_t τ) (w : World ρ) :
    (applet_clear_memory applet w).trace = w.trace ++ clearEvents applet.layout := by
  unfold applet_clear_memory clearEvents
  by_cases h1 : applet.layout.data1_size > 0 <;> by_cases h2 : applet.layout.data2_size > 0 <;>
    simp [h1, h2, World.memset]

/-- Clearing leaves the random source alone. -/
theorem applet_clear_memory_rng {τ ρ : Type} (applet : applet_t τ) (w : World ρ) :
    (applet_clear_memory applet w).rng = w.rng := by
  unfold applet_clear_memory
  by_cases h1 : applet.layout.data1_size > 0 <;> by_cases h2 : applet.layout.data2_size > 0 <;>
    simp [h1, h2, World.memset]

/-- Memory after clearing: zero inside the two data regions, unchanged outside. -/
theorem applet_clear_memory_mem {τ ρ : Type} (applet : applet_t τ) (w : World ρ) (a : Nat) :
    (applet_clear_memory applet w).mem a =
      if (applet.layout.data1_start ≤ a ∧ a < applet.layout.data1_start + applet.layout.data1_size) ∨
         (applet.layout.data2_start ≤ a ∧ a < applet.layout.data2_start + applet.layout.data2_size)
      then 0 else w.mem a := by
  unfold applet_clear_memory
  by_cases h1 : applet.layout.data1_size > 0 <;> by_cases h2 : applet.layout.data2_size > 0 <;>
    simp only [h1, h2, World.memset, memset, if_true, if_false] <;>
    split_ifs <;> first | rfl | (exfalso; omega)

/-- Clearing does not look at the task context. -/
theorem applet_clear_memory_task_irrelevant {τ ρ : Type} (applet : applet_t τ) (t : τ)
    (w : World ρ) :
    applet_clear_memory { applet with task := t } w = applet_clear_memory applet w := rfl

/-- What `applet_reset` returns: it always returns; the calls it logged, the
random source after one draw, header and layout as before, and the task and
memory left by `systask_push_call`. -/
theorem applet_reset_result {τ ρ : Type} (ops : Collab τ ρ) (applet : applet_t τ)
    (cmd arg arg_size : Nat) (w : World ρ) :
    ∃ r, applet_reset ops applet cmd arg arg_size w = Outcome.ret r ∧
      r.2.trace = w.trace ++ resetEvents ops applet cmd arg arg_size w ∧
      r.2.rng = (ops.rng_get w.rng).2 ∧
      r.1.header = applet.header ∧ r.1.layout = applet.layout ∧
      (r.1.task, r.2.mem) = ops.systask_push_call (argCopy ops applet arg arg_size w).1
        (argCopy ops applet arg arg_size w).2.1 applet.header.startup cmd
        (argCopy ops applet arg arg_size w).2.2 (ops.rng_get w.rng).1 := by
  refine ⟨_, rfl, ?_, ?_, rfl, rfl, ?_⟩
  · by_cases hc : arg ≠ 0 ∧ arg_size > 0
    · simp [hc, argCopy, resetEvents, applet_clear_memory_trace, applet_clear_memory_rng]
    · simp [hc, argCopy, resetEvents, applet_clear_memory_trace, applet_clear_memory_rng]
  · by_cases hc : arg ≠ 0 ∧ arg_size > 0
    · simp [hc, applet_clear_memory_rng]
    · simp [hc, applet_clear_memory_rng]
  · by_cases hc : arg ≠ 0 ∧ arg_size > 0
    · simp [hc, argCopy, applet_clear_memory_rng]
    · simp [hc, argCopy, applet_clear_memory_rng]

/-- Clearing makes no call of `systask_push_call`. -/
theorem clearEvents_filter_pushCall (layout : applet_layout_t) :
    (clearEvents layout).filter Event.isPushCall = [] := by
  unfold clearEvents
  by_cases h1 : layout.data1_size > 0 <;> by_cases h2 : layout.data2_size > 0 <;>
    simp [h1, h2, Event.isPushCall]

/-- Clearing makes no call of `systask_push_data`. -/
theorem clearEvents_filter_pushData (layout : applet_layout_t) :
    (clearEvents layout).filter Event.isPushData = [] := by
  unfold clearEvents
  by_cases h1 : layout.data1_size > 0 <;> by_cases h2 : layout.data2_size > 0 <;>
    simp [h1, h2, Event.isPushData]

/-- Clearing makes no call of `rng_get`. -/
theorem clearEvents_filter_rngGet (layout : applet_layout_t) :
    (clearEvents layout).filter Event.isRngGet = [] := by
  unfold clearEvents
  by_cases h1 : layout.data1_size > 0 <;> by_cases h2 : layout.data2_size > 0 <;>
    simp [h1, h2, Event.isRngGet]

/-- The calls of `systask_push_call` in one run of `applet_reset`. -/
theorem resetEvents_filter_pushCall {τ ρ : Type} (ops : Collab τ ρ) (applet : applet_t τ)
    (cmd arg arg_size : Nat) (w : World ρ) :
    (resetEvents ops applet cmd arg arg_size w).filter Event.isPushCall =
      [Event.systask_push_call applet.header.startup cmd
        (argCopy ops applet arg arg_size w).2.2 (ops.rng_get w.rng).1] := by
  by_cases hc : arg ≠ 0 ∧ arg_size > 0 <;>
    simp [hc, resetEvents, clearEvents_filter_pushCall, List.filter_append, Event.isPushCall]

/-- The calls of `rng_get` in one run of `applet_reset`. -/
theorem resetEvents_filter_rngGet {τ ρ : Type} (ops : Collab τ ρ) (applet : applet_t τ)
    (cmd arg arg_size : Nat) (w : World ρ) :
    (resetEvents ops applet cmd arg arg_size w).filter Event.isRngGet =
      [Event.rng_get (ops.rng_get w.rng).1] := by
  by_cases hc : arg ≠ 0 ∧ arg_size > 0 <;>
    simp [hc, resetEvents, clearEvents_filter_rngGet, List.filter_append, Event.isRngGet]

/-- The calls of `systask_push_data` in one run of `applet_reset`. -/
theorem resetEvents_filter_pushData {τ ρ : Type} (ops : Collab τ ρ) (applet : applet_t τ)
    (cmd arg arg_size : Nat) (w : World ρ) :
    (resetEvents ops applet cmd arg arg_size w).filter Event.isPushData =
      if arg ≠ 0 ∧ arg_size > 0 then
        [Event.systask_push_data arg arg_size (argCopy ops applet arg arg_size w).2.2]
      else [] := by
  by_cases hc : arg ≠ 0 ∧ arg_size > 0 <;>
    simp [hc, resetEvents, clearEvents_filter_pushData, List.filter_append, Event.isPushData]

/-! ## Applet: properties -/

/-- C5: `applet_init` validates nothing. It returns normally for every header
and layout, with the record bound to them; so it does for the example header,
whose entry point and stack lie outside the example layout. -/
theorem applet_init_unchecked :
    (∀ (τ ρ : Type) (ops : Collab τ ρ) (applet : applet_t τ) (h : applet_header_t)
      (L : applet_layout_t), applet_init ops applet h L = Outcome.ret ⟨h, L, ops.task_zero⟩) ∧
    header_in_layout exHeader exLayout = false ∧
    applet_init standIn exApplet exHeader exLayout =
      Outcome.ret ⟨exHeader, exLayout, standIn.task_zero⟩ ∧
    (applet_init standIn exApplet exHeader exLayout).fatalCalls = 0 := by
  refine ⟨fun _ _ _ _ _ _ => rfl, by decide, rfl, rfl⟩

/-- C6: after `applet_clear_memory` every byte of both data regions of the
layout reads zero whatever the memory held before, every byte outside them is
unchanged, and `memset` is called for the regions of non-zero size only. -/
theorem applet_clear_memory_zeroes {τ ρ : Type} (applet : applet_t τ) (w : World ρ) :
    (∀ a, applet.layout.data1_start ≤ a →
      a < applet.layout.data1_start + applet.layout.data1_size →
      (applet_clear_memory applet w).mem a = 0) ∧
    (∀ a, applet.layout.data2_start ≤ a →
      a < applet.layout.data2_start + applet.layout.data2_size →
      (applet_clear_memory applet w).mem a = 0) ∧
    (∀ a, ¬ (applet.layout.data1_start ≤ a ∧
        a < applet.layout.data1_start + applet.layout.data1_size) →
      ¬ (applet.layout.data2_start ≤ a ∧
        a < applet.layout.data2_start + applet.layout.data2_size) →
      (applet_clear_memory applet w).mem a = w.mem a) ∧
    (applet_clear_memory applet w).trace = w.trace ++
      ((if applet.layout.data1_size > 0 then
          [Event.memset applet.layout.data1_start 0 applet.layout.data1_size] else []) ++
       (if applet.layout.data2_size > 0 then
          [Event.memset applet.layout.data2_start 0 applet.layout.data2_size] else [])) := by
  refine ⟨fun a h1 h2 => ?_, fun a h1 h2 => ?_, fun a h1 h2 => ?_, ?_⟩
  · rw [applet_clear_memory_mem, if_pos (Or.inl ⟨h1, h2⟩)]
  · rw [applet_clear_memory_mem, if_pos (Or.inr ⟨h1, h2⟩)]
  · rw [applet_clear_memory_mem, if_neg (by tauto)]
  · exact applet_clear_memory_trace applet w

/-- Witness of C6: with the two-region layout of the example, the byte at
`0x20000041` of data region 2 held `0xAA` and reads zero after clearing. -/
theorem applet_clear_memory_zeroes_witness :
    exWorld.mem 0x20000041 = 0xAA ∧
    (applet_clear_memory { exApplet with layout := exLayout2 } exWorld).mem 0x20000041 = 0 :=
  ⟨by decide,
    (applet_clear_memory_zeroes { exApplet with layout := exLayout2 } exWorld).2.1
      0x20000041 (by decide) (by decide)⟩

/-- C7: `applet_reset` returns after staging exactly one call with
`systask_push_call`: entry `header->startup`, first argument `cmd`, second
argument the address returned by `systask_push_data(task, arg, arg_size)` when
`arg` is non-null and `arg_size > 0`, and `0` otherwise, in which case
`systask_push_data` is not called; third argument the value drawn by
`rng_get`. -/
theorem applet_reset_stages_call {τ ρ : Type} (ops : Collab τ ρ) (applet : applet_t τ)
    (cmd arg arg_size : Nat) (w : World ρ) :
    ∃ r evs, applet_reset ops applet cmd arg arg_size w = Outcome.ret r ∧
      r.2.trace = w.trace ++ evs ∧
      evs.filter Event.isPushCall =
        [Event.systask_push_call applet.header.startup cmd
          (if arg ≠ 0 ∧ arg_size > 0 then
            (ops.systask_push_data
              (ops.systask_init applet.task applet.header.stack_start applet.header.stack_size)
              (applet_clear_memory applet w).mem arg arg_size).2.2
           else 0)
          (ops.rng_get w.rng).1] ∧
      evs.filter Event.isPushData =
        (if arg ≠ 0 ∧ arg_size > 0 then
          [Event.systask_push_data arg arg_size
            (ops.systask_push_data
              (ops.systask_init applet.task applet.header.stack_start applet.header.stack_size)
              (applet_clear_memory applet w).mem arg arg_size).2.2]
         else []) := by
  obtain ⟨r, hr, htr, -⟩ := applet_reset_result ops applet cmd arg arg_size w
  refine ⟨r, resetEvents ops applet cmd arg arg_size w, hr, htr, ?_, ?_⟩
  · by_cases hc : arg ≠ 0 ∧ arg_size > 0 <;>
      simp [hc, argCopy, resetEvents, clearEvents_filter_pushCall, List.filter_append,
        Event.isPushCall]
  · by_cases hc : arg ≠ 0 ∧ arg_size > 0 <;>
      simp [hc, argCopy, resetEvents, clearEvents_filter_pushData, List.filter_append,
        Event.isPushData]

/-- C8: every run of `applet_reset` makes its calls in one order: the data
regions are zeroed, the task is re-initialised with `stack_start` and
`stack_size` of the header, the argument is copied (only if one is given),
and after the draw from the random source the startup call is staged last.
The copy is made on the re-initialised task and on the cleared memory, whose
data regions are all zero; and, `systask_init` overwriting the task record,
the outcome does not depend on the task context left by a previous run. -/
theorem applet_reset_order {τ ρ : Type} (ops : Collab τ ρ) (applet : applet_t τ)
    (cmd arg arg_size : Nat) (w : World ρ)
    (hinit : ∀ t t' s n, ops.systask_init t s n = ops.systask_init t' s n) :
    let cleared := applet_clear_memory applet w
    let task0 := ops.systask_init applet.task applet.header.stack_start applet.header.stack_size
    let copy := ops.systask_push_data task0 cleared.mem arg arg_size
    ∃ r, applet_reset ops applet cmd arg arg_size w = Outcome.ret r ∧
      r.2.trace = w.trace ++
        (if applet.layout.data1_size > 0 then
          [Event.memset applet.layout.data1_start 0 applet.layout.data1_size] else []) ++
        (if applet.layout.data2_size > 0 then
          [Event.memset applet.layout.data2_start 0 applet.layout.data2_size] else []) ++
        [Event.systask_init applet.header.stack_start applet.header.stack_size] ++
        (if arg ≠ 0 ∧ arg_size > 0 then [Event.systask_push_data arg arg_size copy.2.2]
         else []) ++
        [Event.rng_get (ops.rng_get w.rng).1,
         Event.systask_push_call applet.header.startup cmd
           (if arg ≠ 0 ∧ arg_size > 0 then copy.2.2 else 0) (ops.rng_get w.rng).1] ∧
      (r.1.task, r.2.mem) =
        (if arg ≠ 0 ∧ arg_size > 0 then
          ops.systask_push_call copy.1 copy.2.1 applet.header.startup cmd copy.2.2
            (ops.rng_get w.rng).1
         else
          ops.systask_push_call task0 cleared.mem applet.header.startup cmd 0
            (ops.rng_get w.rng).1) ∧
      (∀ a, (applet.layout.data1_start ≤ a ∧
              a < applet.layout.data1_start + applet.layout.data1_size) ∨
            (applet.layout.data2_start ≤ a ∧
              a < applet.layout.data2_start + applet.layout.data2_size) →
          cleared.mem a = 0) ∧
      (∀ t, applet_reset ops { applet with task := t } cmd arg arg_size w = Outcome.ret r) := by
  intro cleared task0 copy
  obtain ⟨r, hr, htr, -, -, -, hst⟩ := applet_reset_result ops applet cmd arg arg_size w
  refine ⟨r, hr, ?_, ?_, ?_, ?_⟩
  · rw [htr]
    by_cases hc : arg ≠ 0 ∧ arg_size > 0 <;>
      simp [hc, resetEvents, clearEvents, argCopy, cleared, task0, copy]
  · rw [hst]
    by_cases hc : arg ≠ 0 ∧ arg_size > 0 <;> simp [hc, argCopy, cleared, task0, copy]
  · intro a ha
    show (applet_clear_memory applet w).mem a = 0
    rw [applet_clear_memory_mem, if_pos ha]
  · intro t
    rw [← hr]
    simp only [applet_reset, applet_clear_memory_task_irrelevant,
      hinit t applet.task]

/-- Witness of C8: the example run, whose applet holds a task context left
over from a previous run; the stand-in `systask_init` overwrites the record. -/
theorem applet_reset_order_witness :
    (∀ t t' s n, standIn.systask_init t s n = standIn.systask_init t' s n) ∧
    ∃ r, applet_reset standIn exApplet 7 0x08050000 5 exWorld = Outcome.ret r ∧
      r.2.trace = [Event.memset 0x20000000 0 16, Event.systask_init 0x20000100 64,
        Event.systask_push_data 0x08050000 5 0x2000013B, Event.rng_get 42,
        Event.systask_push_call 0x08040001 7 0x2000013B 42] ∧
      ∀ t, applet_reset standIn { exApplet with task := t } 7 0x08050000 5 exWorld =
        Outcome.ret r :=
  ⟨fun _ _ _ _ => rfl,
    (applet_reset_order standIn exApplet 7 0x08050000 5 exWorld (fun _ _ _ _ => rfl)).imp
      fun _ h => ⟨h.1, h.2.1.trans (by decide), h.2.2.2.2⟩⟩

/-- C9: two consecutive runs of `applet_reset` with the same command and
argument each call `rng_get` exactly once and pass the value drawn as third
argument of the staged call; the two third arguments are two successive draws
of the random source, and so they differ, successive draws being different. -/
theorem applet_reset_fresh_random {τ ρ : Type} (ops : Collab τ ρ) (applet : applet_t τ)
    (cmd arg arg_size : Nat) (w : World ρ)
    (hfresh : (ops.rng_get w.rng).1 ≠ (ops.rng_get (ops.rng_get w.rng).2).1) :
    ∃ r1 r2 evs1 evs2 fn1 fn2 x1 x2 y1 y2 z1 z2,
      applet_reset ops applet cmd arg arg_size w = Outcome.ret r1 ∧
      applet_reset ops r1.1 cmd arg arg_size r1.2 = Outcome.ret r2 ∧
      r1.2.trace = w.trace ++ evs1 ∧ r2.2.trace = r1.2.trace ++ evs2 ∧
      evs1.filter Event.isRngGet = [Event.rng_get z1] ∧
      evs2.filter Event.isRngGet = [Event.rng_get z2] ∧
      evs1.filter Event.isPushCall = [Event.systask_push_call fn1 x1 y1 z1] ∧
      evs2.filter Event.isPushCall = [Event.systask_push_call fn2 x2 y2 z2] ∧
      z1 = (ops.rng_get w.rng).1 ∧
      z2 = (ops.rng_get (ops.rng_get w.rng).2).1 ∧
      z1 ≠ z2 := by
  obtain ⟨r1, h1, t1, g1, -⟩ := applet_reset_result ops applet cmd arg arg_size w
  obtain ⟨r2, h2, t2, -⟩ := applet_reset_result ops r1.1 cmd arg arg_size r1.2
  refine ⟨r1, r2, _, _, _, _, _, _, _, _, _, _, h1, h2, t1, t2,
    resetEvents_filter_rngGet _ _ _ _ _ _, resetEvents_filter_rngGet _ _ _ _ _ _,
    resetEvents_filter_pushCall _ _ _ _ _ _, resetEvents_filter_pushCall _ _ _ _ _ _,
    rfl, by rw [g1], by rw [g1]; exact hfresh⟩

/-- Witness of C9: the example run, whose random source is a counter. -/
theorem applet_reset_fresh_random_witness :
    (standIn.rng_get exWorld.rng).1 ≠ (standIn.rng_get (standIn.rng_get exWorld.rng).2).1 ∧
    ∃ r1 r2 evs1 evs2 fn1 fn2 x1 x2 y1 y2 z1 z2,
      applet_reset standIn exApplet 7 0x08050000 5 exWorld = Outcome.ret r1 ∧
      applet_reset standIn r1.1 7 0x08050000 5 r1.2 = Outcome.ret r2 ∧
      r1.2.trace = exWorld.trace ++ evs1 ∧ r2.2.trace = r1.2.trace ++ evs2 ∧
      evs1.filter Event.isRngGet = [Event.rng_get z1] ∧
      evs2.filter Event.isRngGet = [Event.rng_get z2] ∧
      evs1.filter Event.isPushCall = [Event.systask_push_call fn1 x1 y1 z1] ∧
      evs2.filter Event.isPushCall = [Event.systask_push_call fn2 x2 y2 z2] ∧
      z1 = (standIn.rng_get exWorld.rng).1 ∧
      z2 = (standIn.rng_get (standIn.rng_get exWorld.rng).2).1 ∧
      z1 ≠ z2 :=
  ⟨by decide, applet_reset_fresh_random standIn exApplet 7 0x08050000 5 exWorld (by decide)⟩

/-- C10, counterexample: in the example a 65-byte argument does not fit the
64-byte stack and `systask_push_data` returns its failure sentinel `0`; all
the same `applet_reset` makes no fatal call, returns, and has staged the
startup call, with the null pointer as second argument. -/
theorem applet_reset_copy_failure_not_fatal :
    (standIn.systask_push_data
      (standIn.systask_init exApplet.task exHeader.stack_start exHeader.stack_size)
      (applet_clear_memory exApplet exWorld).mem 0x08050000 65).2.2 = 0 ∧
    (applet_reset standIn exApplet 7 0x08050000 65 exWorld).fatalCalls = 0 ∧
    (applet_reset standIn exApplet 7 0x08050000 65 exWorld).value.map
        (fun r => r.2.trace.filter Event.isPushCall) =
      some [Event.systask_push_call 0x08040001 7 0 42] := by
  refine ⟨by decide, rfl, by decide⟩

/-- C10, amended: `applet_reset` has no fatal path and tests no result. When
an argument is given and `systask_push_data` returns the value `s`, its
failure sentinel included, `applet_reset` makes no fatal call, returns, and
has staged exactly one startup call, whose second argument is `s`. -/
theorem applet_reset_copy_result_unchecked {τ ρ : Type} (ops : Collab τ ρ)
    (applet : applet_t τ) (cmd arg arg_size : Nat) (w : World ρ) (s : Nat)
    (harg : arg ≠ 0 ∧ arg_size > 0)
    (hcopy : (ops.systask_push_data
      (ops.systask_init applet.task applet.header.stack_start applet.header.stack_size)
      (applet_clear_memory applet w).mem arg arg_size).2.2 = s) :
    (applet_reset ops applet cmd arg arg_size w).fatalCalls = 0 ∧
    ∃ r evs, applet_reset ops applet cmd arg arg_size w = Outcome.ret r ∧
      r.2.trace = w.trace ++ evs ∧
      evs.filter Event.isPushData = [Event.systask_push_data arg arg_size s] ∧
      evs.filter Event.isPushCall =
        [Event.systask_push_call applet.header.startup cmd s (ops.rng_get w.rng).1] := by
  obtain ⟨r, hr, htr, -⟩ := applet_reset_result ops applet cmd arg arg_size w
  have hs : (argCopy ops applet arg arg_size w).2.2 = s := by
    simp only [argCopy, if_pos harg]; exact hcopy
  refine ⟨by rw [hr]; rfl, r, _, hr, htr, ?_, ?_⟩
  · rw [resetEvents_filter_pushData, if_pos harg, hs]
  · rw [resetEvents_filter_pushCall, hs]

/-- Witness of C10 amended: the 65-byte argument of the example, for which
`systask_push_data` returns its failure sentinel `0`. -/
theorem applet_reset_copy_result_unchecked_witness :
    ((0x08050000 : Nat) ≠ 0 ∧ (65 : Nat) > 0) ∧
    (applet_reset standIn exApplet 7 0x08050000 65 exWorld).fatalCalls = 0 ∧
    ∃ r evs, applet_reset standIn exApplet 7 0x08050000 65 exWorld = Outcome.ret r ∧
      r.2.trace = exWorld.trace ++ evs ∧
      evs.filter Event.isPushData = [Event.systask_push_data 0x08050000 65 0] ∧
      evs.filter Event.isPushCall =
        [Event.systask_push_call exApplet.header.startup 7 0 (standIn.rng_get exWorld.rng).1] :=
  ⟨by decide, applet_reset_copy_result_unchecked standIn exApplet 7 0x08050000 65 exWorld 0
    (by decide) (by decide)⟩
/-! ## Status codes: further properties -/

/-- A consistent word with bit 31 set passes the check; `ts_ok` compares it
with `TS_OK` and `ts_error` gives the opposite answer. -/
theorem ts_ok_of_checked (s : Nat) (h : _ts_checked s = Outcome.ret s) :
    ts_ok s = Outcome.ret (s == TS_OK) ∧ ts_error s = Outcome.ret (s != TS_OK) := by
  simp [ts_ok, ts_error, h, Outcome.bind]

/-- The enumerators pass the consistency check. -/
theorem ts_checked_TS_OK : _ts_checked TS_OK = Outcome.ret TS_OK := by decide

/-- C13: `TS_ERROR_NOTINIT` and `TS_ERROR_ARG` are one value, built from
payload 4; `TS_OK`, `TS_ERROR`, `TS_ERROR_BUSY`, `TS_ERROR_TIMEOUT`,
`TS_ERROR_ARG` and `TS_ERROR_IO` are pairwise distinct; so every check, being
a function of the status word, answers the same on a not-initialized result
and on an invalid-argument result. -/
theorem ts_notinit_arg_alias :
    TS_ERROR_NOTINIT = TS_ERROR_ARG ∧
    TS_ERROR_NOTINIT = TS_BUILD 4 ∧ TS_ERROR_ARG = TS_BUILD 4 ∧
    [TS_OK, TS_ERROR, TS_ERROR_BUSY, TS_ERROR_TIMEOUT, TS_ERROR_ARG, TS_ERROR_IO].Nodup ∧
    (∀ (α : Type) (check : Nat → α), check TS_ERROR_NOTINIT = check TS_ERROR_ARG) ∧
    ts_ok TS_ERROR_NOTINIT = ts_ok TS_ERROR_ARG ∧
    ts_error TS_ERROR_NOTINIT = ts_error TS_ERROR_ARG :=
  ⟨rfl, rfl, rfl, by decide, fun _ _ => rfl, rfl, rfl⟩

/-- C14, at the failing input: the word `0x7FFF8000` has the complement of its
lower 16 bits in its upper 16 bits, and `ts_ok` and `ts_error` both end in
`__fatal_error("ts_check() error", ...)` on it instead of returning a
boolean. For the consistent words with bit 31 set the claim holds: both
return, `ts_ok` is true exactly on `TS_OK` and `ts_error` is its negation. -/
theorem ts_ok_rejects_consistent_word :
    (0x7FFF8000 : Nat) / 2 ^ 16 = 0xFFFF - 0x7FFF8000 % 2 ^ 16 ∧
    ts_ok 0x7FFF8000 = Outcome.fatal "ts_check() error" ∧
    ts_error 0x7FFF8000 = Outcome.fatal "ts_check() error" ∧
    (∀ s : Nat, s < 2 ^ 32 → s / 2 ^ 16 = 0xFFFF - s % 2 ^ 16 → 2 ^ 31 ≤ s →
      ts_ok s = Outcome.ret (decide (s = TS_OK)) ∧
      ts_error s = Outcome.ret (!decide (s = TS_OK))) := by
  refine ⟨by decide, by decide, by decide, fun s hs hg h31 => ?_⟩
  have hc : _ts_checked s = Outcome.ret s := by
    rw [ts_checked_eq s hs, if_pos]
    norm_num at hs hg h31 ⊢
    omega
  have := ts_ok_of_checked s hc
  simpa [bne] using this

/-- C16: `ensure_ok(status, msg)` returns exactly when the status word is
`TS_OK`; on every other word, a consistent error code or a word that fails
the consistency check, it makes one call of `__fatal_error` and does not
return. `ensure_true(cond, msg)` returns exactly when `cond` is true and
`ensure(seccond, msg)` exactly when `seccond` is `sectrue`; otherwise they
call `__fatal_error(msg, ...)`. -/
theorem ensure_returns_iff (status cond sectrue seccond : Nat) (msg : String)
    (hword : status < 2 ^ 32) :
    (ensure_ok status msg = Outcome.ret () ↔ status = TS_OK) ∧
    (status ≠ TS_OK → (ensure_ok status msg).fatalCalls = 1 ∧
      (ensure_ok status msg).value = none) ∧
    (status ≠ TS_OK → _ts_checked status = Outcome.ret status →
      ensure_ok status msg = Outcome.fatal msg) ∧
    (_ts_checked status ≠ Outcome.ret status →
      ensure_ok status msg = Outcome.fatal "ts_check() error") ∧
    (ensure_true cond msg = Outcome.ret () ↔ cond ≠ 0) ∧
    (cond = 0 → ensure_true cond msg = Outcome.fatal msg) ∧
    (ensure sectrue seccond msg = Outcome.ret () ↔ seccond = sectrue) ∧
    (seccond ≠ sectrue → ensure sectrue seccond msg = Outcome.fatal msg) := by
  have hchk := ts_checked_eq status hword
  by_cases hgood : 2 ^ 31 ≤ status ∧ status % 2 ^ 16 + status / 2 ^ 16 = 0xFFFF
  · rw [if_pos hgood] at hchk
    have hok := (ts_ok_of_checked status hchk).1
    by_cases heq : status = TS_OK
    · subst heq
      simp [ensure_ok, ensure_true, ensure, hok, hchk, Outcome.bind]
    · simp [ensure_ok, ensure_true, ensure, hok, heq, hchk, Outcome.bind, Outcome.fatalCalls,
        Outcome.value]
  · rw [if_neg hgood] at hchk
    have hne : status ≠ TS_OK := by
      intro h
      rw [h, ts_checked_TS_OK] at hchk
      cases hchk
    simp [ensure_ok, ensure_true, ensure, ts_ok, hchk, hne, Outcome.bind, Outcome.fatalCalls,
      Outcome.value]

/-- Witness of C16: `TS_OK`, for which `ensure_ok` returns. -/
theorem ensure_returns_iff_witness :
    TS_OK < 2 ^ 32 ∧ ensure_ok TS_OK "storage" = Outcome.ret () ∧
    ensure_true 1 "storage" = Outcome.ret () ∧
    ensure 0xAAAAAAAA 0xAAAAAAAA "storage" = Outcome.ret () :=
  ⟨by decide,
    (ensure_returns_iff TS_OK 1 0xAAAAAAAA 0xAAAAAAAA "storage" (by decide)).1.2 rfl,
    (ensure_returns_iff TS_OK 1 0xAAAAAAAA 0xAAAAAAAA "storage" (by decide)).2.2.2.2.1.2
      (by decide),
    (ensure_returns_iff TS_OK 1 0xAAAAAAAA 0xAAAAAAAA "storage" (by decide)).2.2.2.2.2.2.1.2
      rfl⟩

/-! ## The verify mechanism -/

/-- A step that does not fail falls through, provided the status given to
`verify_ok` is a consistent code. -/
theorem VerifyStep.run_pass (sectrue : Nat) (st : VerifyStep)
    (hwf : ∀ s, st = VerifyStep.verify_ok s → _ts_checked s = Outcome.ret s)
    (hpass : st.failure sectrue = none) : st.run sectrue = Outcome.ret none := by
  cases st with
  | verify_ok status =>
    have h := (ts_ok_of_checked status (hwf status rfl)).2
    simp only [VerifyStep.failure] at hpass
    have heq : status = TS_OK := by
      by_contra hne
      simp [hne] at hpass
    subst heq
    simp [VerifyStep.run, h, Outcome.bind]
  | verify cond status =>
    simp only [VerifyStep.failure] at hpass
    by_cases hc : cond = 0 <;> simp_all [VerifyStep.run]
  | verify_arg cond =>
    simp only [VerifyStep.failure] at hpass
    by_cases hc : cond = 0 <;> simp_all [VerifyStep.run]
  | verify_sec seccond status =>
    simp only [VerifyStep.failure] at hpass
    by_cases hc : seccond = sectrue <;> simp_all [VerifyStep.run]

/-- A failing step jumps to `error` with its status, provided the status given
to `verify_ok` is a consistent code. -/
theorem VerifyStep.run_fail (sectrue : Nat) (st : VerifyStep) (e : Nat)
    (hwf : ∀ s, st = VerifyStep.verify_ok s → _ts_checked s = Outcome.ret s)
    (hfail : st.failure sectrue = some e) : st.run sectrue = Outcome.ret (some e) := by
  cases st with
  | verify_ok status =>
    have h := (ts_ok_of_checked status (hwf status rfl)).2
    simp only [VerifyStep.failure] at hfail
    by_cases heq : status = TS_OK
    · simp [heq] at hfail
    · simp only [heq, if_false, Option.some.injEq] at hfail
      subst hfail
      simp [VerifyStep.run, h, heq, Outcome.bind]
  | verify cond status =>
    simp only [VerifyStep.failure] at hfail
    by_cases hc : cond = 0 <;> simp_all [VerifyStep.run]
  | verify_arg cond =>
    simp only [VerifyStep.failure] at hfail
    by_cases hc : cond = 0 <;> simp_all [VerifyStep.run]
  | verify_sec seccond status =>
    simp only [VerifyStep.failure] at hfail
    by_cases hc : seccond = sectrue <;> simp_all [VerifyStep.run]

/-- Steps that all pass leave `__status` as it is and are all evaluated. -/
theorem verify_steps_pass (sectrue : Nat) (steps : List VerifyStep) (status n : Nat)
    (hwf : ∀ s, VerifyStep.verify_ok s ∈ steps → _ts_checked s = Outcome.ret s)
    (hpass : ∀ st ∈ steps, st.failure sectrue = none) :
    verify_steps sectrue steps status n = Outcome.ret (status, n + steps.length) := by
  induction steps generalizing n with
  | nil => simp [verify_steps]
  | cons st rest ih =>
    have h1 := VerifyStep.run_pass sectrue st
      (fun s hs => hwf s (by rw [hs]; exact List.mem_cons_self _ _))
      (hpass st (List.mem_cons_self _ _))
    have h2 := ih (n + 1) (fun s hs => hwf s (List.mem_cons_of_mem _ hs))
      (fun t ht => hpass t (List.mem_cons_of_mem _ ht))
    simp only [verify_steps, h1, Outcome.bind, h2, List.length_cons, Outcome.ret.injEq,
      Prod.mk.injEq, true_and]
    omega

/-- Passing steps followed by a failing one: the function returns the status of
the failing step, whatever comes after it. -/
theorem verify_steps_fail (sectrue : Nat) (pre post : List VerifyStep) (st : VerifyStep)
    (e status n : Nat)
    (hwf : ∀ s, VerifyStep.verify_ok s ∈ pre ++ [st] → _ts_checked s = Outcome.ret s)
    (hpass : ∀ p ∈ pre, p.failure sectrue = none)
    (hfail : st.failure sectrue = some e) :
    verify_steps sectrue (pre ++ st :: post) status n = Outcome.ret (e, n + pre.length + 1) := by
  induction pre generalizing n with
  | nil =>
    have h1 := VerifyStep.run_fail sectrue st e
      (fun s hs => hwf s (by rw [hs]; simp)) hfail
    simp [verify_steps, h1, Outcome.bind]
  | cons p rest ih =>
    have h1 := VerifyStep.run_pass sectrue p
      (fun s hs => hwf s (by rw [hs]; simp))
      (hpass p (List.mem_cons_self _ _))
    have h2 := ih (n + 1)
      (fun s hs => hwf s (by simp only [List.cons_append]; exact List.mem_cons_of_mem _ hs))
      (fun t ht => hpass t (List.mem_cons_of_mem _ ht))
    show verify_steps sectrue (p :: (rest ++ st :: post)) status n = _
    rw [verify_steps, h1]
    simp only [Outcome.bind]
    rw [h2, List.length_cons]
    simp only [Outcome.ret.injEq, Prod.mk.injEq, true_and]
    omega

/-- C15: a function written with the verify mechanism, whose `verify_ok`
steps are given consistent status codes, returns `TS_OK` when every step
passes, having evaluated them all; and when the steps `pre` pass and the step
`st` after them fails, it returns the status of `st` (the status itself for
`verify_ok`, the given status for `verify` and `verify_sec`, `TS_ERROR_ARG`
for `verify_arg`) and has evaluated `pre` and `st` only, whatever steps
`post` follow. -/
theorem verify_first_failure_wins (sectrue : Nat) (pre post : List VerifyStep)
    (hwf : ∀ s, VerifyStep.verify_ok s ∈ pre → _ts_checked s = Outcome.ret s)
    (hpass : ∀ p ∈ pre, p.failure sectrue = none) :
    verify_function sectrue pre = Outcome.ret (TS_OK, pre.length) ∧
    (∀ s, _ts_checked s = Outcome.ret s → s ≠ TS_OK →
      verify_function sectrue (pre ++ VerifyStep.verify_ok s :: post) =
        Outcome.ret (s, pre.length + 1)) ∧
    (∀ s, verify_function sectrue (pre ++ VerifyStep.verify 0 s :: post) =
        Outcome.ret (s, pre.length + 1)) ∧
    verify_function sectrue (pre ++ VerifyStep.verify_arg 0 :: post) =
        Outcome.ret (TS_ERROR_ARG, pre.length + 1) ∧
    (∀ c s, c ≠ sectrue →
      verify_function sectrue (pre ++ VerifyStep.verify_sec c s :: post) =
        Outcome.ret (s, pre.length + 1)) := by
  have hwf2 : ∀ (st : VerifyStep), (∀ s, st = VerifyStep.verify_ok s →
      _ts_checked s = Outcome.ret s) →
      ∀ s, VerifyStep.verify_ok s ∈ pre ++ [st] → _ts_checked s = Outcome.ret s := by
    intro st hst s hs
    rcases List.mem_append.1 hs with h | h
    · exact hwf s h
    · exact hst s (List.mem_singleton.1 h).symm
  refine ⟨?_, ?_, ?_, ?_, ?_⟩
  · have := verify_steps_pass sectrue pre TS_OK 0 hwf hpass
    simpa [verify_function] using this
  · intro s hs hne
    have := verify_steps_fail sectrue pre post (VerifyStep.verify_ok s) s TS_OK 0
      (hwf2 _ (fun t ht => by cases ht; exact hs)) hpass (by simp [VerifyStep.failure, hne])
    simpa [verify_function] using this
  · intro s
    have := verify_steps_fail sectrue pre post (VerifyStep.verify 0 s) s TS_OK 0
      (hwf2 _ (fun t ht => by cases ht)) hpass (by simp [VerifyStep.failure])
    simpa [verify_function] using this
  · have := verify_steps_fail sectrue pre post (VerifyStep.verify_arg 0) TS_ERROR_ARG TS_OK 0
      (hwf2 _ (fun t ht => by cases ht)) hpass (by simp [VerifyStep.failure])
    simpa [verify_function] using this
  · intro c s hc
    have := verify_steps_fail sectrue pre post (VerifyStep.verify_sec c s) s TS_OK 0
      (hwf2 _ (fun t ht => by cases ht)) hpass (by simp [VerifyStep.failure, hc])
    simpa [verify_function] using this

/-- Witness of C15: three passing steps, then a failing `verify_arg`, then a
`verify_ok` on an inconsistent word, which is never evaluated. -/
theorem verify_first_failure_wins_witness :
    (∀ s, VerifyStep.verify_ok s ∈ [VerifyStep.verify_ok TS_OK, VerifyStep.verify 1 TS_ERROR_IO,
        VerifyStep.verify_sec 0xAAAAAAAA TS_ERROR] → _ts_checked s = Outcome.ret s) ∧
    (∀ p ∈ [VerifyStep.verify_ok TS_OK, VerifyStep.verify 1 TS_ERROR_IO,
        VerifyStep.verify_sec 0xAAAAAAAA TS_ERROR], p.failure 0xAAAAAAAA = none) ∧
    verify_function 0xAAAAAAAA
      ([VerifyStep.verify_ok TS_OK, VerifyStep.verify 1 TS_ERROR_IO,
        VerifyStep.verify_sec 0xAAAAAAAA TS_ERROR] ++
        VerifyStep.verify_arg 0 :: [VerifyStep.verify_ok 0x00010001]) =
      Outcome.ret (TS_ERROR_ARG, 4) :=
  ⟨fun s hs => by simp at hs; subst hs; decide, by decide,
    (verify_first_failure_wins 0xAAAAAAAA
      [VerifyStep.verify_ok TS_OK, VerifyStep.verify 1 TS_ERROR_IO,
        VerifyStep.verify_sec 0xAAAAAAAA TS_ERROR]
      [VerifyStep.verify_ok 0x00010001]
      (fun s hs => by simp at hs; subst hs; decide) (by decide)).2.2.2.1⟩

/-! ## Syscall numbers -/

/-- C11: the values of the syscall identifiers are the consecutive integers
from `SYSCALL_SYSTEM_EXIT = 1` to `SYSCALL_FIRMWARE_CALC_HASH = 102`, each
taken once and in the order of declaration: they are pairwise distinct, an
integer is the value of an identifier exactly when it lies in `[1, 102]`, and
`0` is the value of none. There are 102 identifiers. -/
theorem syscall_numbers_dense :
    syscall_numbers.map Prod.snd = List.range' 1 102 ∧
    (syscall_numbers.map Prod.snd).Nodup ∧
    (∀ n, n ∈ syscall_numbers.map Prod.snd ↔
      SYSCALL_SYSTEM_EXIT ≤ n ∧ n ≤ SYSCALL_FIRMWARE_CALC_HASH) ∧
    (∀ n, SYSCALL_SYSTEM_EXIT ≤ n → n ≤ SYSCALL_FIRMWARE_CALC_HASH →
      (syscall_numbers.map Prod.snd).count n = 1) ∧
    0 ∉ syscall_numbers.map Prod.snd ∧
    syscall_numbers.head? = some ("SYSCALL_SYSTEM_EXIT", 1) ∧
    syscall_numbers.getLast? = some ("SYSCALL_FIRMWARE_CALC_HASH", 102) ∧
    SYSCALL_SYSTEM_EXIT = 1 ∧ SYSCALL_FIRMWARE_CALC_HASH = 102 ∧
    syscall_numbers.length = 102 := by
  have hv : syscall_numbers.map Prod.snd = List.range' 1 102 := by decide
  have h1 : SYSCALL_SYSTEM_EXIT = 1 := by decide
  have h2 : SYSCALL_FIRMWARE_CALC_HASH = 102 := by decide
  have hnd : (List.range' 1 102).Nodup := List.nodup_range' 1 102
  refine ⟨hv, by rw [hv]; exact hnd, fun n => ?_, fun n hn1 hn2 => ?_, ?_, by decide,
    by decide, h1, h2, by decide⟩
  · rw [hv, h1, h2, List.mem_range']
    constructor
    · rintro ⟨i, hi, rfl⟩
      omega
    · intro h
      exact ⟨n - 1, by omega, by omega⟩
  · rw [hv]
    apply List.count_eq_one_of_mem hnd
    rw [List.mem_range']
    exact ⟨n - 1, by omega, by omega⟩
  · rw [hv, List.mem_range']
    rintro ⟨i, -, hi⟩
    omega

/-- C12: an ordinal outside the range of the enumeration runs no handler and
is answered with `TS_ERROR`; the dispatcher returns, the kernel state and the
count of handler calls are unchanged. The ordinal `0` and the ordinal one past
`SYSCALL_FIRMWARE_CALC_HASH` are such ordinals. -/
theorem syscall_dispatch_out_of_range {σ : Type} (handler : Nat → σ → σ × Nat)
    (ordinal : Nat) (s : σ × Nat)
    (hout : ordinal < SYSCALL_SYSTEM_EXIT ∨ SYSCALL_FIRMWARE_CALC_HASH < ordinal) :
    syscall_dispatch handler ordinal s = Outcome.ret (s, TS_ERROR) ∧
    (syscall_dispatch handler ordinal s).fatalCalls = 0 ∧
    syscall_dispatch handler 0 s = Outcome.ret (s, TS_ERROR) ∧
    syscall_dispatch handler (SYSCALL_FIRMWARE_CALC_HASH + 1) s = Outcome.ret (s, TS_ERROR) := by
  have h1 : SYSCALL_SYSTEM_EXIT = 1 := by decide
  have h2 : SYSCALL_FIRMWARE_CALC_HASH = 102 := by decide
  have key : ∀ o, (o < SYSCALL_SYSTEM_EXIT ∨ SYSCALL_FIRMWARE_CALC_HASH < o) →
      syscall_dispatch handler o s = Outcome.ret (s, TS_ERROR) := by
    intro o ho
    unfold syscall_dispatch
    rw [if_neg]
    omega
  refine ⟨key _ hout, by rw [key _ hout]; rfl, key 0 (by omega), key _ (by omega)⟩

/-- Witness of C12: the ordinal 103 with a handler that would change the
state; the state `7` and the count `0` of handler calls are as before. -/
theorem syscall_dispatch_out_of_range_witness :
    ((103 : Nat) < SYSCALL_SYSTEM_EXIT ∨ SYSCALL_FIRMWARE_CALC_HASH < 103) ∧
    syscall_dispatch (fun _ (k : Nat) => (k + 1, TS_OK)) 103 (7, 0) =
      Outcome.ret ((7, 0), TS_ERROR) :=
  ⟨by decide,
    (syscall_dispatch_out_of_range (fun _ (k : Nat) => (k + 1, TS_OK)) 103 (7, 0)
      (by decide)).1⟩

/-! ## Applet: initialisation -/

/-- C17: `applet_init` returns a record whose header is the given header,
whose layout equals the given layout and whose task context is all zero,
whatever the record held before the call. -/
theorem applet_init_binds {τ ρ : Type} (ops : Collab τ ρ) (applet : applet_t τ)
    (header : applet_header_t) (layout : applet_layout_t) :
    ∃ a, applet_init ops applet header layout = Outcome.ret a ∧
      a.header = header ∧ a.layout = layout ∧ a.task = ops.task_zero ∧
      ∀ before : applet_t τ, applet_init ops before header layout = Outcome.ret a :=
  ⟨_, rfl, rfl, rfl, rfl, fun _ => rfl⟩


/-! ## Suspend -/

/-- C18: in `powerctl_suspend`, for every combination of `USE_HAPTIC` and
`USE_TOUCH`, the subsystems torn down before STOP2 are USB, haptic, touch,
display and the system tick, in that order (haptic and touch only when their
flag is set); the subsystems initialised after wake-up are the system tick,
display, touch, haptic and USB, which is the same sequence reversed, so every
subsystem that was stopped is started again. Nothing is started before STOP2
and nothing is stopped after it. -/
theorem powerctl_suspend_reverse_order (USE_HAPTIC USE_TOUCH : Bool) (backlight_level : Nat) :
    (beforeStop (powerctl_suspend USE_HAPTIC USE_TOUCH backlight_level)).filterMap
        PowerCall.stops =
      [Subsystem.usb] ++ (if USE_HAPTIC then [Subsystem.haptic] else []) ++
      (if USE_TOUCH then [Subsystem.touch] else []) ++
      [Subsystem.display, Subsystem.systick] ∧
    (afterStop (powerctl_suspend USE_HAPTIC USE_TOUCH backlight_level)).filterMap
        PowerCall.starts =
      [Subsystem.systick, Subsystem.display] ++
      (if USE_TOUCH then [Subsystem.touch] else []) ++
      (if USE_HAPTIC then [Subsystem.haptic] else []) ++ [Subsystem.usb] ∧
    (afterStop (powerctl_suspend USE_HAPTIC USE_TOUCH backlight_level)).filterMap
        PowerCall.starts =
      ((beforeStop (powerctl_suspend USE_HAPTIC USE_TOUCH backlight_level)).filterMap
        PowerCall.stops).reverse ∧
    (beforeStop (powerctl_suspend USE_HAPTIC USE_TOUCH backlight_level)).filterMap
        PowerCall.starts = [] ∧
    (afterStop (powerctl_suspend USE_HAPTIC USE_TOUCH backlight_level)).filterMap
        PowerCall.stops = [] := by
  cases USE_HAPTIC <;> cases USE_TOUCH <;> exact ⟨rfl, rfl, rfl, rfl, rfl⟩

/-! ## Colours: shared facts -/

/-- Masking a field of `n` bits at position `k` and shifting it down. -/
theorem and_mask_shiftRight (c k n : Nat) :
    (c &&& ((2 ^ n - 1) <<< k)) >>> k = c / 2 ^ k % 2 ^ n := by
  apply Nat.eq_of_testBit_eq
  intro i
  rw [Nat.testBit_shiftRight, Nat.testBit_and, Nat.testBit_shiftLeft, Nat.testBit_mod_two_pow,
    Nat.testBit_two_pow_sub_one, ← Nat.shiftRight_eq_div_pow, Nat.testBit_shiftRight]
  by_cases h : i < n <;> simp [h, Bool.and_comm]

/-- The red field of an RGB565 colour. -/
theorem rgb565_r (c : Nat) : (c &&& 0xF800) >>> 11 = c / 2048 % 32 :=
  and_mask_shiftRight c 11 5

/-- The green field of an RGB565 colour. -/
theorem rgb565_g (c : Nat) : (c &&& 0x07E0) >>> 5 = c / 32 % 64 :=
  and_mask_shiftRight c 5 6

/-- The blue field of an RGB565 colour. -/
theorem rgb565_b (c : Nat) : (c &&& 0x001F) >>> 0 = c % 32 := by
  have := and_mask_shiftRight c 0 5
  simpa using this

/-- Putting three fields together gives the RGB565 colour with these fields. -/
theorem rgb565_pack (r g b : Nat) (hg : g < 64) (hb : b < 32) :
    (r <<< 11) ||| (g <<< 5) ||| b = r * 2048 + g * 32 + b := by
  have h1 : (g <<< 5) ||| b = 2 ^ 5 * g + b := by
    have h := @Nat.mul_add_lt_is_or 5 b (by omega) g
    rw [Nat.shiftLeft_eq, Nat.mul_comm g, ← h]
  have h2 : (r <<< 11) ||| (2 ^ 5 * g + b) = 2 ^ 11 * r + (2 ^ 5 * g + b) := by
    have h := @Nat.mul_add_lt_is_or 11 (2 ^ 5 * g + b) (by omega) r
    rw [Nat.shiftLeft_eq, Nat.mul_comm r, ← h]
  rw [Nat.lor_assoc, h1, h2]
  omega

/-- An RGB565 colour is made of its three fields. -/
theorem rgb565_unpack_pack (c : Nat) (hc : c < 65536) :
    (((c / 2048 % 32) <<< 11) ||| ((c / 32 % 64) <<< 5) ||| (c % 32)) % 65536 = c := by
  rw [rgb565_pack _ _ _ (Nat.mod_lt _ (by norm_num)) (Nat.mod_lt _ (by norm_num))]
  omega

/-- Storing a natural number in a `uint16_t`. -/
theorem toU16_natCast (n : Nat) : toU16 (n : Int) = n % 65536 := by
  unfold toU16
  omega

/-- The 4-bit interpolation at `alpha = 0` is the background. -/
theorem a4_lerp_zero (fg bg : Int) : a4_lerp fg bg 0 = bg := by
  simp [a4_lerp, Int.mul_tdiv_cancel]

/-- The 4-bit interpolation at `alpha = 15` is the foreground. -/
theorem a4_lerp_full (fg bg : Int) : a4_lerp fg bg 15 = fg := by
  simp [a4_lerp, Int.mul_tdiv_cancel]

/-! ## Colours: properties -/

/-- C19: for all RGB565 colours `fg` and `bg` the 4-bit blends give the
background at `alpha = 0` and the foreground at `alpha = 15`:
`gl_color16_blend_a4` gives `bg`, respectively `fg`, and
`gl_color32_blend_a4` gives `gl_color16_to_color32(bg)`, respectively
`gl_color16_to_color32(fg)`. -/
theorem gl_color_blend_a4_ends (fg bg : Nat) (hfg : fg < 2 ^ 16) (hbg : bg < 2 ^ 16) :
    gl_color16_blend_a4 fg bg 0 = bg ∧
    gl_color16_blend_a4 fg bg 15 = fg ∧
    gl_color32_blend_a4 fg bg 0 = gl_color16_to_color32 bg ∧
    gl_color32_blend_a4 fg bg 15 = gl_color16_to_color32 fg := by
  norm_num at hfg hbg
  have e0 : ((0 : Nat) : Int) = 0 := rfl
  have e15 : ((15 : Nat) : Int) = 15 := rfl
  refine ⟨?_, ?_, ?_, ?_⟩
  · simp only [gl_color16_blend_a4, e0, a4_lerp_zero, toU16_natCast, Nat.mod_mod, rgb565_r,
      rgb565_g, rgb565_b]
    have h1 : bg / 2048 % 32 % 65536 = bg / 2048 % 32 := by omega
    have h2 : bg / 32 % 64 % 65536 = bg / 32 % 64 := by omega
    have h3 : bg % 32 % 65536 = bg % 32 := by omega
    rw [h1, h2, h3]
    exact rgb565_unpack_pack bg hbg
  · simp only [gl_color16_blend_a4, e15, a4_lerp_full, toU16_natCast, Nat.mod_mod, rgb565_r,
      rgb565_g, rgb565_b]
    have h1 : fg / 2048 % 32 % 65536 = fg / 2048 % 32 := by omega
    have h2 : fg / 32 % 64 % 65536 = fg / 32 % 64 := by omega
    have h3 : fg % 32 % 65536 = fg % 32 := by omega
    rw [h1, h2, h3]
    exact rgb565_unpack_pack fg hfg
  · simp only [gl_color32_blend_a4, gl_color16_to_color32, e0, a4_lerp_zero, toU16_natCast,
      Nat.mod_mod, gl_color32_rgb]
    have h : ∀ x : Nat, x % 65536 % 256 = x % 256 := fun x => by omega
    simp only [h]
  · simp only [gl_color32_blend_a4, gl_color16_to_color32, e15, a4_lerp_full, toU16_natCast,
      Nat.mod_mod, gl_color32_rgb]
    have h : ∀ x : Nat, x % 65536 % 256 = x % 256 := fun x => by omega
    simp only [h]

/-- Witness of C19: white over the colour `0x1234`. -/
theorem gl_color_blend_a4_ends_witness :
    (0xFFFF : Nat) < 2 ^ 16 ∧ (0x1234 : Nat) < 2 ^ 16 ∧
    gl_color16_blend_a4 0xFFFF 0x1234 0 = 0x1234 ∧
    gl_color16_blend_a4 0xFFFF 0x1234 15 = 0xFFFF ∧
    gl_color32_blend_a4 0xFFFF 0x1234 0 = gl_color16_to_color32 0x1234 ∧
    gl_color32_blend_a4 0xFFFF 0x1234 15 = gl_color16_to_color32 0xFFFF :=
  ⟨by decide, by decide, gl_color_blend_a4_ends 0xFFFF 0x1234 (by decide) (by decide)⟩

/-- C20, at the failing input: with white over black and `alpha = 15`,
`gl_color16_blend_a8` returns `0x0861`, not the foreground `0xFFFF`; each
field is the share 15/255 of the foreground field. The foreground comes back
at `alpha = 255`. -/
theorem gl_color16_blend_a8_at_15 :
    gl_color16_blend_a8 0xFFFF 0x0000 15 = 0x0861 ∧
    gl_color16_blend_a8 0xFFFF 0x0000 15 ≠ 0xFFFF ∧
    gl_color16_blend_a8 0xFFFF 0x0000 255 = 0xFFFF := by
  decide

/-! ## Colours: the 8-bit blends and the luminance -/

/-- The 8-bit interpolation at `alpha = 0` is the background. -/
theorem a8_lerp_zero (fg bg : Int) : a8_lerp fg bg 0 = bg := by
  simp [a8_lerp, Int.mul_tdiv_cancel]

/-- The 8-bit interpolation at `alpha = 255` is the foreground. -/
theorem a8_lerp_full (fg bg : Int) : a8_lerp fg bg 255 = fg := by
  simp [a8_lerp, Int.mul_tdiv_cancel]

/-- C21: for all RGB565 colours `fg` and `bg` the 8-bit blends give the
background at `alpha = 0` and the foreground at `alpha = 255`:
`gl_color32_blend_a8` gives `gl_color16_to_color32(bg)`, respectively
`gl_color16_to_color32(fg)`, and `gl_color16_blend_a8` gives `bg`,
respectively `fg`. -/
theorem gl_color_blend_a8_ends (fg bg : Nat) (hfg : fg < 2 ^ 16) (hbg : bg < 2 ^ 16) :
    gl_color32_blend_a8 fg bg 0 = gl_color16_to_color32 bg ∧
    gl_color32_blend_a8 fg bg 255 = gl_color16_to_color32 fg ∧
    gl_color16_blend_a8 fg bg 0 = bg ∧
    gl_color16_blend_a8 fg bg 255 = fg := by
  norm_num at hfg hbg
  have e0 : ((0 : Nat) : Int) = 0 := rfl
  have e255 : ((255 : Nat) : Int) = 255 := rfl
  have h : ∀ x : Nat, x % 65536 % 256 = x % 256 := fun x => by omega
  refine ⟨?_, ?_, ?_, ?_⟩
  · simp only [gl_color32_blend_a8, gl_color16_to_color32, e0, a8_lerp_zero, toU16_natCast,
      Nat.mod_mod, gl_color32_rgb, h]
  · simp only [gl_color32_blend_a8, gl_color16_to_color32, e255, a8_lerp_full, toU16_natCast,
      Nat.mod_mod, gl_color32_rgb, h]
  · simp only [gl_color16_blend_a8, e0, a8_lerp_zero, toU16_natCast, Nat.mod_mod, rgb565_r,
      rgb565_g, rgb565_b]
    have h1 : bg / 2048 % 32 % 65536 = bg / 2048 % 32 := by omega
    have h2 : bg / 32 % 64 % 65536 = bg / 32 % 64 := by omega
    have h3 : bg % 32 % 65536 = bg % 32 := by omega
    rw [h1, h2, h3]
    exact rgb565_unpack_pack bg hbg
  · simp only [gl_color16_blend_a8, e255, a8_lerp_full, toU16_natCast, Nat.mod_mod, rgb565_r,
      rgb565_g, rgb565_b]
    have h1 : fg / 2048 % 32 % 65536 = fg / 2048 % 32 := by omega
    have h2 : fg / 32 % 64 % 65536 = fg / 32 % 64 := by omega
    have h3 : fg % 32 % 65536 = fg % 32 := by omega
    rw [h1, h2, h3]
    exact rgb565_unpack_pack fg hfg

/-- Witness of C21: the colour `0x8421` over the colour `0x1234`. -/
theorem gl_color_blend_a8_ends_witness :
    (0x8421 : Nat) < 2 ^ 16 ∧ (0x1234 : Nat) < 2 ^ 16 ∧
    gl_color32_blend_a8 0x8421 0x1234 0 = gl_color16_to_color32 0x1234 ∧
    gl_color32_blend_a8 0x8421 0x1234 255 = gl_color16_to_color32 0x8421 ∧
    gl_color16_blend_a8 0x8421 0x1234 0 = 0x1234 ∧
    gl_color16_blend_a8 0x8421 0x1234 255 = 0x8421 :=
  ⟨by decide, by decide, gl_color_blend_a8_ends 0x8421 0x1234 (by decide) (by decide)⟩

/-- The red component that `gl_color32_lum` extracts is always `0`: bits 16 to
23 of a 16-bit value. -/
theorem gl_color32_to_r_truncated (c : Nat) : gl_color32_to_r (c % 65536) = 0 := by
  have h := and_mask_shiftRight (c % 65536) 16 8
  have e : (2 ^ 8 - 1) <<< 16 = 0x00FF0000 := by decide
  rw [e] at h
  rw [gl_color32_to_r, h]
  omega

/-- C22, at the failing inputs: `gl_color32_lum` gives 170 for opaque white
`0xFFFFFFFF` and 0 for pure red `0xFFFF0000`, where the mean of the three
components is 255 and 85. Its parameter has the 16-bit colour type: the
result depends on the lower 16 bits of the colour only and the red component
it reads is always 0. -/
theorem gl_color32_lum_truncates :
    gl_color32_lum 0xFFFFFFFF = 170 ∧ lum_of_rgba8888 0xFFFFFFFF = 255 ∧
    gl_color32_lum 0xFFFF0000 = 0 ∧ lum_of_rgba8888 0xFFFF0000 = 85 ∧
    (∀ c, gl_color32_lum c = gl_color32_lum (c % 65536)) ∧
    (∀ c, gl_color32_lum c =
      ((0 + gl_color32_to_g (c % 65536) + gl_color32_to_b (c % 65536)) / 3) % 256) := by
  refine ⟨by decide, by decide, by decide, by decide, fun c => ?_, fun c => ?_⟩
  · simp only [gl_color32_lum, Nat.mod_mod]
  · simp only [gl_color32_lum, gl_color32_to_r_truncated]

/-! ## Fonts: glyph lookup -/

/-- The value of `FONTS_COUNT`. -/
theorem FONTS_COUNT_eq : FONTS_COUNT = 8 := by decide

/-- How `get_font_info` treats its argument: the tests and the index are those
of the id as converted to `font_id_t`. -/
theorem get_font_info_converted (build : FontBuild) (font : Int) :
    get_font_info build font =
      if to_font_id_t build font < 0 ∨ to_font_id_t build font ≥ FONTS_COUNT then none
      else build.font_registry (to_font_id_t build font).toNat := rfl

/-- Without `TRANSLATIONS`, `font_get_glyph` and the three metrics are
functions of what `get_font_info` returns. -/
theorem font_get_glyph_of_info (build : FontBuild) (font : Int) (c : Nat)
    (hbuild : build.get_utf8_glyph = none) :
    (∀ font_info, get_font_info build font = some font_info →
      (0x20 ≤ c → c < 0x7F →
        font_get_glyph build font c = font_info.glyph_data (c - 0x20) ∧ c - 0x20 ≤ 94) ∧
      (¬ (0x20 ≤ c ∧ c < 0x7F) →
        font_get_glyph build font c = font_info.glyph_nonprintable)) ∧
    (get_font_info build font = none →
      font_get_glyph build font c = 0 ∧ font_height build font = 0 ∧
      font_max_height build font = 0 ∧ font_baseline build font = 0) := by
  have htr : translated_glyph build font c = none := by simp [translated_glyph, hbuild]
  constructor
  · intro font_info hinfo
    constructor
    · intro hc1 hc2
      refine ⟨?_, by omega⟩
      simp only [font_get_glyph, htr, hinfo]
      rw [if_pos ⟨hc1, hc2⟩]
    · intro hc
      simp only [font_get_glyph, htr, font_nonprintable_glyph, hinfo]
      rw [if_neg hc]
  · intro hinfo
    refine ⟨?_, ?_, ?_, ?_⟩
    · simp only [font_get_glyph, htr, font_nonprintable_glyph, hinfo]
      split_ifs <;> rfl
    · simp only [font_height, hinfo]
    · simp only [font_max_height, hinfo]
    · simp only [font_baseline, hinfo]

/-- In a build whose `font_id_t` has at least the 32 bits of an `int`, the
conversion keeps a non-negative `int` and turns a negative one into an id that
fails one of the two tests of `get_font_info`. -/
theorem to_font_id_t_wide (build : FontBuild) (font : Int)
    (hbits : 32 ≤ build.font_id_bits) (hlo : -2 ^ 31 ≤ font) (hhi : font < 2 ^ 31) :
    (0 ≤ font → to_font_id_t build font = font) ∧
    (font < 0 → to_font_id_t build font < 0 ∨ to_font_id_t build font ≥ FONTS_COUNT) := by
  have hm : (2 : Nat) ^ 32 ≤ 2 ^ build.font_id_bits := Nat.pow_le_pow_right (by decide) hbits
  have hm2 : ((2 ^ 32 : Nat) : Int) ≤ ((2 ^ build.font_id_bits : Nat) : Int) := by
    exact_mod_cast hm
  have hc := FONTS_COUNT_eq
  simp only [to_font_id_t]
  generalize ((2 ^ build.font_id_bits : Nat) : Int) = m at hm2 ⊢
  norm_num at hm2 hlo hhi
  constructor
  · intro h0
    have hu : font % m = font := Int.emod_eq_of_lt h0 (by omega)
    rw [hu, if_neg (by omega)]
  · intro hneg
    have hu : font % m = font + m := by
      rw [← Int.add_emod_self]
      exact Int.emod_eq_of_lt (by omega) (by omega)
    rw [hu, hc]
    split_ifs <;> omega

/-- C27, at the failing input: in the example build with a one-byte
`font_id_t` and without `TRANSLATIONS`, the font ids 256 and -256 are at least
`FONTS_COUNT` and negative, and `font_get_glyph`, `font_height`,
`font_max_height` and `font_baseline` answer with the glyphs and the metrics of
`FONT_NORMAL` instead of `NULL` and 0: the argument is converted to
`font_id_t` before `get_font_info` tests it. In every build the cases of the
claim hold of the id as converted to `font_id_t`; in a build whose `font_id_t`
has at least 32 bits they hold of every `int` id as the claim states them. -/
theorem font_get_glyph_narrowed_id :
    exBuildShort.get_utf8_glyph = none ∧ (256 : Int) ≥ FONTS_COUNT ∧
    font_get_glyph exBuildShort 256 0x41 = exFont.glyph_data (0x41 - 0x20) ∧
    font_get_glyph exBuildShort 256 0x41 = 0x1021 ∧
    font_get_glyph exBuildShort 256 0x07 = exFont.glyph_nonprintable ∧
    font_get_glyph exBuildShort 256 0x07 = 0x2000 ∧
    font_height exBuildShort 256 = 12 ∧ font_max_height exBuildShort 256 = 14 ∧
    font_baseline exBuildShort 256 = 2 ∧
    font_get_glyph exBuildShort (-256) 0x41 = 0x1021 ∧
    font_height exBuildShort (-256) = 12 ∧
    font_get_glyph exBuild 256 0x41 = 0 ∧ font_height exBuild 256 = 0 ∧
    font_get_glyph exBuild (-256) 0x41 = 0 ∧ font_height exBuild (-256) = 0 ∧
    (∀ (build : FontBuild) (font : Int) (c : Nat), build.get_utf8_glyph = none →
      (∀ font_info, 0 ≤ to_font_id_t build font → to_font_id_t build font < FONTS_COUNT →
        build.font_registry (to_font_id_t build font).toNat = some font_info →
        (0x20 ≤ c → c < 0x7F →
          font_get_glyph build font c = font_info.glyph_data (c - 0x20) ∧ c - 0x20 ≤ 94) ∧
        (¬ (0x20 ≤ c ∧ c < 0x7F) →
          font_get_glyph build font c = font_info.glyph_nonprintable)) ∧
      (to_font_id_t build font < 0 ∨ to_font_id_t build font ≥ FONTS_COUNT ∨
          build.font_registry (to_font_id_t build font).toNat = none →
        font_get_glyph build font c = 0 ∧ font_height build font = 0 ∧
        font_max_height build font = 0 ∧ font_baseline build font = 0)) ∧
    (∀ (build : FontBuild) (font : Int) (c : Nat), build.get_utf8_glyph = none →
      32 ≤ build.font_id_bits → -2 ^ 31 ≤ font → font < 2 ^ 31 →
      (∀ font_info, 0 ≤ font → font < FONTS_COUNT →
        build.font_registry font.toNat = some font_info →
        (0x20 ≤ c → c < 0x7F →
          font_get_glyph build font c = font_info.glyph_data (c - 0x20) ∧ c - 0x20 ≤ 94) ∧
        (¬ (0x20 ≤ c ∧ c < 0x7F) →
          font_get_glyph build font c = font_info.glyph_nonprintable)) ∧
      (font < 0 ∨ font ≥ FONTS_COUNT ∨ build.font_registry font.toNat = none →
        font_get_glyph build font c = 0 ∧ font_height build font = 0 ∧
        font_max_height build font = 0 ∧ font_baseline build font = 0)) := by
  refine ⟨rfl, by decide, by decide, by decide, by decide, by decide, by decide, by decide,
    by decide, by decide, by decide, by decide, by decide, by decide, by decide, ?_, ?_⟩
  · intro build font c hbuild
    have hcases := font_get_glyph_of_info build font c hbuild
    have hconv := get_font_info_converted build font
    constructor
    · intro font_info h0 h1 hreg
      apply hcases.1
      rw [hconv, if_neg (by omega)]
      exact hreg
    · intro hbad
      apply hcases.2
      rw [hconv]
      by_cases hr : to_font_id_t build font < 0 ∨ to_font_id_t build font ≥ FONTS_COUNT
      · rw [if_pos hr]
      · rw [if_neg hr]
        rcases hbad with h | h | h
        · exact absurd (Or.inl h) hr
        · exact absurd (Or.inr h) hr
        · exact h
  · intro build font c hbuild hbits hlo hhi
    have hcases := font_get_glyph_of_info build font c hbuild
    have hconv := get_font_info_converted build font
    have hwide := to_font_id_t_wide build font hbits hlo hhi
    have hc := FONTS_COUNT_eq
    constructor
    · intro font_info h0 h1 hreg
      apply hcases.1
      rw [hconv, hwide.1 h0, if_neg (by omega)]
      exact hreg
    · intro hbad
      apply hcases.2
      rw [hconv]
      by_cases hneg : font < 0
      · rw [if_pos (hwide.2 hneg)]
      · rw [hwide.1 (by omega)]
        by_cases hr : font < 0 ∨ font ≥ FONTS_COUNT
        · rw [if_pos hr]
        · rw [if_neg hr]
          rcases hbad with h | h | h
          · exact absurd (Or.inl h) hr
          · exact absurd (Or.inr h) hr
          · exact h

/-! ## Fonts: the UTF-8 decoder -/

/-- The lead byte of a 2-byte sequence. -/
theorem utf8_lead2 : ∀ a, a < 32 →
    0xC0 ||| a = 192 + a ∧ (192 + a) &&& 0b11100000 = 0b11000000 ∧
    (192 + a) &&& 0b00011111 = a := by decide

/-- The lead byte of a 3-byte sequence. -/
theorem utf8_lead3 : ∀ a, a < 16 →
    0xE0 ||| a = 224 + a ∧ (224 + a) &&& 0b11100000 ≠ 0b11000000 ∧
    (224 + a) &&& 0b11110000 = 0b11100000 ∧ (224 + a) &&& 0b00001111 = a := by decide

/-- A continuation byte. -/
theorem utf8_cont : ∀ b, b < 64 →
    0x80 ||| b = 128 + b ∧ IS_UTF8_CONTINUE (128 + b) = true ∧
    (128 + b) &&& 0b00111111 = b := by decide

/-- Putting the payload bits of two bytes together. -/
theorem utf8_pack2 (a b : Nat) (hb : b < 64) : (a <<< 6) ||| b = a * 64 + b := by
  have h := @Nat.mul_add_lt_is_or 6 b (by omega) a
  rw [Nat.shiftLeft_eq, Nat.mul_comm a, ← h]

/-- Putting the payload bits of three bytes together. -/
theorem utf8_pack3 (a b d : Nat) (hb : b < 64) (hd : d < 64) :
    (a <<< 12) ||| (b <<< 6) ||| d = a * 4096 + b * 64 + d := by
  have h1 : (b <<< 6) ||| d = 2 ^ 6 * b + d := by
    have h := @Nat.mul_add_lt_is_or 6 d (by omega) b
    rw [Nat.shiftLeft_eq, Nat.mul_comm b, ← h]
  have h2 : (a <<< 12) ||| (2 ^ 6 * b + d) = 2 ^ 12 * a + (2 ^ 6 * b + d) := by
    have h := @Nat.mul_add_lt_is_or 12 (2 ^ 6 * b + d) (by omega) a
    rw [Nat.shiftLeft_eq, Nat.mul_comm a, ← h]
  rw [Nat.lor_assoc, h1, h2]
  omega

/-- C23, with the failing input: a first byte below `0x7F` is decoded as
itself, the text advances by one byte and `remaining` decreases by one; the
byte `0x7F` is not: the text advances by one byte and `remaining` decreases
by one as well, but the codepoint returned is `0xFFFD`. -/
theorem next_utf8_codepoint_one_byte :
    (∀ (font : Int) (b : Nat) (rest : List Nat) (remaining : Int), b < 0x7F →
      next_utf8_codepoint ⟨font, b :: rest, remaining⟩ =
        some (b, ⟨font, rest, remaining - 1⟩)) ∧
    (∀ (font : Int) (rest : List Nat) (remaining : Int),
      next_utf8_codepoint ⟨font, 0x7F :: rest, remaining⟩ =
        some (0xFFFD, ⟨font, rest, remaining - 1⟩)) ∧
    next_utf8_codepoint ⟨0, [0x7F], 1⟩ = some (0xFFFD, ⟨0, [], 0⟩) := by
  refine ⟨fun font b rest remaining hb => ?_, fun font rest remaining => ?_, by decide⟩
  · have h2 : b % 65536 = b := by omega
    have h3 : b < 127 := hb
    simp [next_utf8_codepoint, font_glyph_iter_t.byte, font_glyph_iter_t.advance, h3, h2]
  · by_cases h2 : remaining ≥ 2 <;> by_cases h3 : remaining ≥ 3 <;>
      by_cases h4 : remaining ≥ 4 <;>
      simp +decide [next_utf8_codepoint, font_glyph_iter_t.byte, font_glyph_iter_t.advance,
        scAnd, UNICODE_BADCHAR, h2, h3, h4]

/-- C24: decoding undoes the UTF-8 encoding of the codepoints that need two or
three bytes. For `c` in `0x80..0x7FF` and a text that starts with
`0xC0 | c>>6`, `0x80 | c&0x3F`, with `remaining >= 2`, the decoder returns
`c` and consumes 2 bytes; for `c` in `0x800..0xFFFF` and a text that starts
with `0xE0 | c>>12`, `0x80 | (c>>6)&0x3F`, `0x80 | c&0x3F`, with
`remaining >= 3`, it returns `c` and consumes 3 bytes. -/
theorem next_utf8_codepoint_roundtrip (font : Int) (c : Nat) (rest : List Nat)
    (remaining : Int) :
    (0x80 ≤ c → c ≤ 0x7FF → remaining ≥ 2 →
      next_utf8_codepoint
          ⟨font, (0xC0 ||| (c >>> 6)) :: (0x80 ||| (c &&& 0x3F)) :: rest, remaining⟩ =
        some (c, ⟨font, rest, remaining - 2⟩)) ∧
    (0x800 ≤ c → c ≤ 0xFFFF → remaining ≥ 3 →
      next_utf8_codepoint
          ⟨font, (0xE0 ||| (c >>> 12)) :: (0x80 ||| ((c >>> 6) &&& 0x3F)) ::
            (0x80 ||| (c &&& 0x3F)) :: rest, remaining⟩ =
        some (c, ⟨font, rest, remaining - 3⟩)) := by
  have e6 : c &&& 0x3F = c % 64 := Nat.and_pow_two_sub_one_eq_mod c 6
  have e6b : (c >>> 6) &&& 0x3F = c / 64 % 64 := by
    rw [Nat.shiftRight_eq_div_pow]
    exact Nat.and_pow_two_sub_one_eq_mod (c / 2 ^ 6) 6
  constructor
  · intro h1 h2 hr
    have ea : c >>> 6 = c / 64 := Nat.shiftRight_eq_div_pow c 6
    obtain ⟨l1, l2, l3⟩ := utf8_lead2 (c / 64) (by omega)
    obtain ⟨c1, c2, c3⟩ := utf8_cont (c % 64) (by omega)
    rw [ea, e6, l1, c1]
    have hlt : ¬ (192 + c / 64 < 127) := by omega
    have hm : (192 + c / 64) % 65536 = 192 + c / 64 := by omega
    have hout : (c / 64 * 64 + c % 64) % 65536 = c := by omega
    simp [next_utf8_codepoint, font_glyph_iter_t.byte, font_glyph_iter_t.advance, scAnd,
      hlt, hm, hr, l2, l3, c2, c3, utf8_pack2, hout, Nat.mod_lt]
  · intro h1 h2 hr
    have ea : c >>> 12 = c / 4096 := Nat.shiftRight_eq_div_pow c 12
    obtain ⟨l1, l2, l3, l4⟩ := utf8_lead3 (c / 4096) (by omega)
    obtain ⟨c1, c2, c3⟩ := utf8_cont (c / 64 % 64) (by omega)
    obtain ⟨d1, d2, d3⟩ := utf8_cont (c % 64) (by omega)
    rw [ea, e6, e6b, l1, c1, d1]
    have hlt : ¬ (224 + c / 4096 < 127) := by omega
    have hm : (224 + c / 4096) % 65536 = 224 + c / 4096 := by omega
    have hm1 : (128 + c / 64 % 64) % 65536 = 128 + c / 64 % 64 := by omega
    have hout : (c / 4096 * 4096 + c / 64 % 64 * 64 + c % 64) % 65536 = c := by omega
    have hr2 : remaining ≥ 2 := by omega
    simp [next_utf8_codepoint, font_glyph_iter_t.byte, font_glyph_iter_t.advance, scAnd,
      hlt, hm, hm1, hr, hr2, l2, l3, l4, c2, c3, d2, d3, utf8_pack3, hout, Nat.mod_lt]

/-- Witness of C24: the two bytes of `é` (U+00E9) and the three bytes of the
euro sign (U+20AC). -/
theorem next_utf8_codepoint_roundtrip_witness :
    next_utf8_codepoint ⟨0, [0xC3, 0xA9, 0x41], 3⟩ = some (0xE9, ⟨0, [0x41], 1⟩) ∧
    next_utf8_codepoint ⟨0, [0xE2, 0x82, 0xAC], 3⟩ = some (0x20AC, ⟨0, [], 0⟩) :=
  ⟨(next_utf8_codepoint_roundtrip 0 0xE9 [0x41] 3).1 (by decide) (by decide) (by decide),
    (next_utf8_codepoint_roundtrip 0 0x20AC [] 3).2 (by decide) (by decide) (by decide)⟩

/-- Both operands have a value. -/
theorem scAnd_some (a b : Bool) : scAnd (some a) (some b) = some (a && b) := by
  cases a <;> rfl

/-- A false first operand: the second is not evaluated. -/
theorem scAnd_false (b : Option Bool) : scAnd (some false) b = some false := rfl

/-- A true first operand: the value is the second operand. -/
theorem scAnd_true (b : Option Bool) : scAnd (some true) b = b := rfl

/-- The decoder on a buffer that holds at least `remaining > 0` bytes: it
returns, having consumed `k` bytes with `1 <= k <= 4` and `k <= remaining`,
and on the buffer cut to its first `remaining` bytes it returns the same
codepoint and consumes the same number of bytes. -/
theorem next_utf8_codepoint_in_bounds (iter : font_glyph_iter_t) (h0 : 0 < iter.remaining)
    (hlen : iter.remaining ≤ iter.text.length) :
    ∃ out k, next_utf8_codepoint iter = some (out, iter.advance k) ∧
      next_utf8_codepoint { iter with text := iter.text.take iter.remaining.toNat } =
        some (out, font_glyph_iter_t.advance
          { iter with text := iter.text.take iter.remaining.toNat } k) ∧
      1 ≤ k ∧ k ≤ 4 ∧ (k : Int) ≤ iter.remaining := by
  obtain ⟨font, text, rem⟩ := iter
  simp only at h0 hlen ⊢
  obtain ⟨n, rfl⟩ : ∃ n : Nat, rem = (n : Int) := ⟨rem.toNat, by omega⟩
  have hl : n ≤ text.length := by exact_mod_cast hlen
  rw [Int.toNat_ofNat]
  rcases n with _ | _ | _ | _ | m
  · omega
  · rcases text with _ | ⟨t0, rest⟩
    · simp at hl
    simp [next_utf8_codepoint, font_glyph_iter_t.byte, scAnd_some, scAnd_false, scAnd_true]
    split_ifs <;> exact ⟨_, 1, rfl, rfl, by omega, by omega, by omega⟩
  · rcases text with _ | ⟨t0, _ | ⟨t1, rest⟩⟩
    · simp at hl
    · simp at hl
    simp [next_utf8_codepoint, font_glyph_iter_t.byte, scAnd_some, scAnd_false, scAnd_true]
    split_ifs <;> first
      | exact ⟨_, 1, rfl, rfl, by omega, by omega, by omega⟩
      | exact ⟨_, 2, rfl, rfl, by omega, by omega, by omega⟩
  · rcases text with _ | ⟨t0, _ | ⟨t1, _ | ⟨t2, rest⟩⟩⟩
    · simp at hl
    · simp at hl
    · simp at hl
    simp [next_utf8_codepoint, font_glyph_iter_t.byte, scAnd_some, scAnd_false, scAnd_true]
    split_ifs <;> first
      | exact ⟨_, 1, rfl, rfl, by omega, by omega, by omega⟩
      | exact ⟨_, 2, rfl, rfl, by omega, by omega, by omega⟩
      | exact ⟨_, 3, rfl, rfl, by omega, by omega, by omega⟩
  · rcases text with _ | ⟨t0, _ | ⟨t1, _ | ⟨t2, _ | ⟨t3, rest⟩⟩⟩⟩
    · simp at hl
    · simp at hl
    · simp at hl
    · simp at hl
    have h2 : (2 : Int) ≤ (m : Int) + 1 + 1 + 1 + 1 := by omega
    have h3 : (3 : Int) ≤ (m : Int) + 1 + 1 + 1 + 1 := by omega
    have h4 : (4 : Int) ≤ (m : Int) + 1 + 1 + 1 + 1 := by omega
    simp [next_utf8_codepoint, font_glyph_iter_t.byte, scAnd_some, scAnd_false, scAnd_true,
      h2, h3, h4]
    split_ifs <;> first
      | exact ⟨_, 1, rfl, rfl, by omega, by omega, by omega⟩
      | exact ⟨_, 2, rfl, rfl, by omega, by omega, by omega⟩
      | exact ⟨_, 3, rfl, rfl, by omega, by omega, by omega⟩
      | exact ⟨_, 4, rfl, rfl, by omega, by omega, by omega⟩

/-- With more fuel than `remaining`, on a buffer of at least `remaining` bytes,
`font_next_glyph` returns: the number of self-recursive calls is at most
`remaining`, `remaining` does not grow, a `true` result comes with a glyph
that is not `NULL` and a `false` result with `remaining <= 0`. -/
theorem font_next_glyph_result (build : FontBuild) (fuel : Nat) :
    ∀ (iter : font_glyph_iter_t) (out : Nat), iter.remaining ≤ iter.text.length →
      iter.remaining.toNat < fuel →
      ∃ ret iter1 out1 depth,
        font_next_glyph build fuel iter out = some (ret, iter1, out1, depth) ∧
        depth ≤ iter.remaining.toNat ∧ iter1.remaining ≤ iter.remaining ∧
        (ret = true → out1 ≠ 0) ∧ (ret = false → iter1.remaining ≤ 0) := by
  induction fuel with
  | zero => intro iter out _ hf; omega
  | succ fuel ih =>
    intro iter out hlen hfuel
    by_cases hrem : iter.remaining ≤ 0
    · exact ⟨false, iter, out, 0, by simp [font_next_glyph, hrem], by omega, le_refl _,
        by simp, fun _ => hrem⟩
    · obtain ⟨c, k, hnext, -, hk1, -, hk2⟩ :=
        next_utf8_codepoint_in_bounds iter (by omega) hlen
      by_cases hg : font_get_glyph build (iter.advance k).font c = 0
      · have hlen1 : (iter.advance k).remaining ≤ (iter.advance k).text.length := by
          simp only [font_glyph_iter_t.advance, List.length_drop]
          omega
        have hfuel1 : (iter.advance k).remaining.toNat < fuel := by
          simp only [font_glyph_iter_t.advance]
          omega
        obtain ⟨ret, iter1, out1, depth, hrec, hd, hr, ht, hf⟩ :=
          ih (iter.advance k) (font_get_glyph build (iter.advance k).font c) hlen1 hfuel1
        refine ⟨ret, iter1, out1, depth + 1, ?_, ?_, ?_, ht, hf⟩
        · rw [hg] at hrec
          simp only [font_next_glyph, hrem, hnext, hg, ↓reduceIte, hrec, Option.map_some']
        · simp only [font_glyph_iter_t.advance] at hd
          omega
        · simp only [font_glyph_iter_t.advance] at hr
          omega
      · refine ⟨true, iter.advance k, font_get_glyph build (iter.advance k).font c, 0, ?_,
          by omega, ?_, fun _ => hg, by simp⟩
        · simp [font_next_glyph, hrem, hnext, hg]
        · simp only [font_glyph_iter_t.advance]
          omega

/-- C26: `font_next_glyph` terminates on every iterator whose buffer holds at
least `remaining` bytes: with any bound on the nesting above `remaining` it
returns, after at most `remaining` self-recursive calls. Each decoding step
leaves an iterator whose `remaining` is strictly smaller, and it is on that
iterator that the self-recursive call is made. When the result is `true`,
`*out` is a glyph that is not `NULL`; when it is `false`, `remaining <= 0`. -/
theorem font_next_glyph_terminates (build : FontBuild) (fuel : Nat) (iter : font_glyph_iter_t)
    (out : Nat) (hlen : iter.remaining ≤ iter.text.length)
    (hfuel : iter.remaining.toNat < fuel) :
    (∃ ret iter1 out1 depth,
      font_next_glyph build fuel iter out = some (ret, iter1, out1, depth) ∧
      depth ≤ iter.remaining.toNat ∧
      (ret = true → out1 ≠ 0) ∧ (ret = false → iter1.remaining ≤ 0)) ∧
    (0 < iter.remaining → ∃ c next, next_utf8_codepoint iter = some (c, next) ∧
      next.remaining < iter.remaining ∧ 0 ≤ next.remaining ∧
      next.remaining ≤ next.text.length ∧
      (font_get_glyph build next.font c = 0 →
        font_next_glyph build (fuel + 1) iter out =
          (font_next_glyph build fuel next 0).map
            fun r => (r.1, r.2.1, r.2.2.1, r.2.2.2 + 1))) := by
  constructor
  · obtain ⟨ret, iter1, out1, depth, h1, h2, -, h3, h4⟩ :=
      font_next_glyph_result build fuel iter out hlen hfuel
    exact ⟨ret, iter1, out1, depth, h1, h2, h3, h4⟩
  · intro h0
    obtain ⟨c, k, hnext, -, hk1, -, hk2⟩ := next_utf8_codepoint_in_bounds iter h0 hlen
    refine ⟨c, iter.advance k, hnext, ?_, ?_, ?_, fun hg => ?_⟩
    · simp only [font_glyph_iter_t.advance]; omega
    · simp only [font_glyph_iter_t.advance]; omega
    · simp only [font_glyph_iter_t.advance, List.length_drop]; omega
    · have hrem : ¬ iter.remaining ≤ 0 := by omega
      simp [font_next_glyph, hrem, hnext, hg]

/-- Witness of C26: in the example build the glyph of `!` is `NULL`; on the
text `!!A` the function calls itself twice and returns the glyph of `A`. -/
theorem font_next_glyph_terminates_witness :
    (3 : Int) ≤ ([0x21, 0x21, 0x41] : List Nat).length ∧ (3 : Int).toNat < 4 ∧
    font_next_glyph exBuild 4 ⟨0, [0x21, 0x21, 0x41], 3⟩ 0 =
      some (true, ⟨0, [], 0⟩, 0x1021, 2) ∧
    ∃ ret iter1 out1 depth,
      font_next_glyph exBuild 4 ⟨0, [0x21, 0x21, 0x41], 3⟩ 0 =
        some (ret, iter1, out1, depth) ∧
      depth ≤ (3 : Int).toNat ∧
      (ret = true → out1 ≠ 0) ∧ (ret = false → iter1.remaining ≤ 0) :=
  ⟨by decide, by decide, by decide,
    (font_next_glyph_terminates exBuild 4 ⟨0, [0x21, 0x21, 0x41], 3⟩ 0 (by decide)
      (by decide)).1⟩

end Trezor
